import Mathlib

/-!
Verification of the VERITY skill-engine core against its natural-language
specification.

The definitions below are a shallow embedding of the TypeScript sources:

* `engine/skillEngine.ts`  — the generic state-machine interpreter `runSkill`
  (states, guarded transitions, enter/exit hooks, fail states, step budget)
  and the atomic file primitive `atomicWriteJson`;
* `skills/executionGovernor.ts` — the admission-control specification;
* `skills/refreshPipelineAtomic.ts` — the atomic refresh pipeline
  specification;
* `store/traceStore.ts` — trace-identifier generation, `record` and `prune`;
* `middleware/withTrace.ts` — `runTracedSkill`.

Modelling conventions:
* JavaScript `async` functions that can throw are modelled with
  `Except ErrInfo`; a hook may additionally invoke the engine's `api.fail`,
  so hook outcomes are a three-way sum (`ActionResult`).
* Wall-clock timestamps (`Date.now()`) and random bytes are irrelevant to
  every claim; event timestamps are dropped from `TraceEvent` and
  clock/randomness-derived strings are passed in as parameters.
* JavaScript numbers are modelled as `ℚ` (no claim in scope depends on
  binary floating-point rounding; the one rounding site is far from any
  decision threshold).
-/

/-- A JavaScript error value, reduced to the two fields the engine reads
(`e?.name`, `e?.message`). -/
structure ErrInfo where
  name : String
  message : String
deriving DecidableEq, Repr

/-- The `type` tag of a `TraceEvent` (`skillEngine.ts`). -/
inductive EvType where
  | enter | exit | guard | transition | error | done
deriving DecidableEq, Repr

/-- The `TraceEvent` from `skillEngine.ts`, minus the wall-clock field `t`. -/
structure TraceEvent where
  type : EvType
  state : Option String := none
  «from» : Option String := none
  «to» : Option String := none
  label : Option String := none
  guardResult : Option Bool := none
  note : Option String := none
  error : Option ErrInfo := none
deriving DecidableEq, Repr

/-- The `GuardFn<C>`: a guard either returns a boolean or throws. -/
def GuardFn (C : Type) : Type := C → Except ErrInfo Bool

/-- Outcome of running an `ActionFn<C>` hook to completion: it returns
normally, calls `api.fail(failState, note)`, or throws an ordinary
exception.  In every case it may first have mutated the context and pushed
trace events through `api`. -/
inductive ActionResult (C : Type) where
  | ok (ctx : C) (events : List TraceEvent)
  | failCall (ctx : C) (events : List TraceEvent) (failState : String) (note : Option String)
  | threw (ctx : C) (events : List TraceEvent) (err : ErrInfo)

/-- The `ActionFn<C>` from `skillEngine.ts`. -/
def ActionFn (C : Type) : Type := C → ActionResult C

/-- One entry of `SkillSpec.states`. -/
structure StateDef (C : Type) where
  onEnter : Option (ActionFn C) := none
  onExit : Option (ActionFn C) := none

/-- The `Transition<C>` from `skillEngine.ts`. -/
structure Transition (C : Type) where
  «from» : String
  «to» : String
  guard : Option (GuardFn C) := none
  label : Option String := none

/-- The `SkillSpec<C>` from `skillEngine.ts`.  The TypeScript
`Record<string, StateDef>` becomes an ordered association list. -/
structure SkillSpec (C : Type) where
  name : String
  version : String
  start : String
  terminal : List String
  fail : List String
  states : List (String × StateDef C)
  transitions : List (Transition C)

/-- The `RunResult<C>` from `skillEngine.ts` (`skill` is flattened into the
name/version pair). -/
structure RunResult (C : Type) where
  ok : Bool
  skillName : String
  skillVersion : String
  startState : String
  endState : String
  steps : Nat
  trace : List TraceEvent
  ctx : C

/-- The options record of `runSkill`. -/
structure RunOpts where
  maxSteps : Option Nat := none
  allowedStates : Option (List String) := none

/-- The engine's mutable loop state: `current`, the context, the step
counter and the trace accumulated so far. -/
structure EngSt (C : Type) where
  current : String
  ctx : C
  steps : Nat
  trace : List TraceEvent

/-- Outcome of one iteration of the `while` loop in `runSkill`: either the
loop continues from a new engine state, or a `SkillFail` exception was
thrown (carrying the fail state and the exception message) and unwinds to
the surrounding `catch`. -/
inductive IterOut (C : Type) where
  | next (st : EngSt C)
  | failed (st : EngSt C) (failState : String) (msg : String)

/-- Outcome of running an optional hook under the engine's try/catch. -/
inductive HookOut (C : Type) where
  | ok (st : EngSt C)
  | failed (st : EngSt C) (failState : String) (msg : String)

namespace SkillEngine

variable {C : Type}

/-- The `spec.terminal.includes(s) || spec.fail.includes(s)`. -/
def isTerminal (spec : SkillSpec C) (s : String) : Bool :=
  spec.terminal.contains s || spec.fail.contains s

/-- The `spec.states[s]` (association-list lookup). -/
def lookupState (spec : SkillSpec C) (s : String) : Option (StateDef C) :=
  (spec.states.find? (fun p => p.1 == s)).map (·.2)

/-- The `spec.transitions.filter((t) => t.from === current)`. -/
def outgoing (spec : SkillSpec C) (s : String) : List (Transition C) :=
  spec.transitions.filter (fun t => t.«from» == s)

/-- Append one trace event. -/
def pushEv (st : EngSt C) (e : TraceEvent) : EngSt C :=
  { st with trace := st.trace ++ [e] }

/-- The trace events and state change performed by `api.fail(f, note)`
before it throws `SkillFail`. -/
def failTrace (st : EngSt C) (f : String) (note : Option String) : EngSt C :=
  let st := pushEv st { type := .transition, «from» := some st.current, «to» := some f,
                        label := some "FAIL" }
  let st := { st with current := f }
  match note with
  | some n =>
      pushEv st { type := .error, state := some f, note := some n,
                  error := some ⟨"Fail", n⟩ }
  | none => st

/-- The `SkillFail` message: `note ?? "failed"`. -/
def failMsg (note : Option String) : String := note.getD "failed"

/-- The `api.fail` as seen from the loop body. -/
def doFail (st : EngSt C) (f : String) (note : Option String) : IterOut C :=
  .failed (failTrace st f note) f (failMsg note)

/-- The `api.fail` as seen from inside a hook's try/catch wrapper. -/
def hookFail (st : EngSt C) (f : String) (note : Option String) : HookOut C :=
  .failed (failTrace st f note) f (failMsg note)

/-- Run an optional hook under the engine's try/catch: a `SkillFail`
thrown by `api.fail` is re-thrown; any other exception is recorded as an
`error` event and converted to `api.fail("ActionError", note)`. -/
def runHook (st : EngSt C) (hook : Option (ActionFn C)) (note : String) : HookOut C :=
  match hook with
  | none => .ok st
  | some h =>
      match h st.ctx with
      | .ok c evs => .ok { st with ctx := c, trace := st.trace ++ evs }
      | .failCall c evs f n => hookFail { st with ctx := c, trace := st.trace ++ evs } f n
      | .threw c evs err =>
          let errEv : TraceEvent := { type := .error, state := some st.current, error := some err }
          let st2 : EngSt C := { st with ctx := c, trace := st.trace ++ evs ++ [errEv] }
          hookFail st2 "ActionError" (some note)

/-- The `guard(ctx)` under `try { ok = !!(await t.guard(ctx)); } catch { ok = false; }`. -/
def guardEval (g : GuardFn C) (ctx : C) : Bool :=
  match g ctx with
  | .ok b => b
  | .error _ => false

/-- Whether a transition is taken: a guard-less transition counts as
unconditionally true. -/
def guardPasses (t : Transition C) (ctx : C) : Bool :=
  match t.guard with
  | none => true
  | some g => guardEval g ctx

/-- The `for (const t of outgoing)` scan: evaluates guards in declared
order, pushing a `guard` event for each transition that has a guard, and
stops at the first transition whose guard is true. Returns the events
pushed and the chosen transition, if any. -/
def scanTransitions (ctx : C) (cur : String) :
    List (Transition C) → List TraceEvent × Option (Transition C)
  | [] => ([], none)
  | t :: rest =>
      let ok := guardPasses t ctx
      let evs : List TraceEvent :=
        match t.guard with
        | some _ => [{ type := .guard, state := some cur, «to» := some t.«to»,
                       label := t.label, guardResult := some ok }]
        | none => []
      if ok then (evs, some t)
      else
        let r := scanTransitions ctx cur rest
        (evs ++ r.1, r.2)

/-- Record the `transition` event and move to the destination state. -/
def finishMove (st : EngSt C) (t : Transition C) : IterOut C :=
  .next { (pushEv st { type := .transition, «from» := some st.current, «to» := some t.«to»,
                       label := t.label }) with current := t.«to» }

/-- The chosen transition is taken: run the exit hook (pushing the `exit`
event first, inside the try), then record the transition. -/
def takeTransition (st : EngSt C) (d : StateDef C) (t : Transition C) : IterOut C :=
  match d.onExit with
  | none => finishMove st t
  | some h =>
      let st := pushEv st { type := .exit, state := some st.current }
      match runHook st (some h) ("onExit failed in " ++ st.current) with
      | .failed st' f m => .failed st' f m
      | .ok st1 => finishMove st1 t

/-- The loop body from the state-definition lookup onwards (everything
after the step-budget and allow-list checks). -/
def stepWithDef (spec : SkillSpec C) (st : EngSt C) (d : StateDef C) : IterOut C :=
  let st := pushEv st { type := .enter, state := some st.current }
  match runHook st d.onEnter ("onEnter failed in " ++ st.current) with
  | .failed st' f m => .failed st' f m
  | .ok st1 =>
      let outg := outgoing spec st1.current
      if outg.isEmpty then
        doFail st1 "Stuck" (some ("No outgoing transitions from: " ++ st1.current))
      else
        let scanned := scanTransitions st1.ctx st1.current outg
        let st2 := { st1 with trace := st1.trace ++ scanned.1 }
        match scanned.2 with
        | none =>
            doFail st2 "GuardsBlocked"
              (some ("All guards blocked transitions from: " ++ st2.current))
        | some t => takeTransition st2 d t

/-- Whether the `allowedStates` allow-list rejects the current state. -/
def allowedViolated (allowed : Option (List String)) (s : String) : Bool :=
  match allowed with
  | some a => !(a.contains s)
  | none => false

/-- One iteration of the `while (!isTerminal(current))` loop. -/
def stepIter (spec : SkillSpec C) (maxSteps : Nat) (allowed : Option (List String))
    (st : EngSt C) : IterOut C :=
  let st1 : EngSt C := { st with steps := st.steps + 1 }
  if maxSteps < st1.steps then
    doFail st1 "EngineTimeout" (some ("Exceeded maxSteps=" ++ toString maxSteps))
  else if allowedViolated allowed st1.current then
    doFail st1 "ForbiddenState" (some ("State not allowed: " ++ st1.current))
  else
    match lookupState spec st1.current with
    | none => doFail st1 "MissingState" (some ("No state definition for: " ++ st1.current))
    | some d => stepWithDef spec st1 d

/-- The code after the loop: push the `done` event and build the result. -/
def finishResult (spec : SkillSpec C) (st : EngSt C) : RunResult C :=
  let st := pushEv st { type := .done, state := some st.current,
                        note := some (if spec.fail.contains st.current then "failed" else "ok") }
  { ok := spec.terminal.contains st.current, skillName := spec.name,
    skillVersion := spec.version, startState := spec.start, endState := st.current,
    steps := st.steps, trace := st.trace, ctx := st.ctx }

/-- The surrounding `catch`: a `SkillFail` carrying fail state `f` and
message `msg` becomes a result with `ok = false` and `endState = f`; an
extra `error` event is pushed when `f` is neither a declared fail state
nor a terminal state. -/
def catchResult (spec : SkillSpec C) (st : EngSt C) (f : String) (msg : String) :
    RunResult C :=
  let st :=
    if spec.fail.contains f || spec.terminal.contains f then st
    else pushEv st { type := .error, state := some f, error := some ⟨"SkillFail", msg⟩ }
  { ok := false, skillName := spec.name, skillVersion := spec.version,
    startState := spec.start, endState := f, steps := st.steps,
    trace := st.trace, ctx := st.ctx }

/-- The `while` loop, driven by explicit fuel.  The real loop has no fuel;
`none` marks fuel exhaustion, an artefact of the embedding that
`runLoop_total` proves unreachable for the fuel `runSkill` supplies. -/
def runLoop (spec : SkillSpec C) (maxSteps : Nat) (allowed : Option (List String)) :
    Nat → EngSt C → Option (RunResult C)
  | fuel, st =>
    if isTerminal spec st.current then some (finishResult spec st)
    else
      match fuel with
      | 0 => none
      | f + 1 =>
          match stepIter spec maxSteps allowed st with
          | .next st' => runLoop spec maxSteps allowed f st'
          | .failed st' fs msg => some (catchResult spec st' fs msg)

/-- The `runSkill` from `skillEngine.ts`. -/
def runSkill (spec : SkillSpec C) (ctx : C) (opts : RunOpts) : Option (RunResult C) :=
  let maxSteps := opts.maxSteps.getD 200
  runLoop spec maxSteps opts.allowedStates (maxSteps + 1)
    { current := spec.start, ctx := ctx, steps := 0, trace := [] }

/-! ### `adapters/atomicIO.ts`: the atomic write primitive (modelled at the
filesystem level) -/

/-- A filesystem: a partial map from paths to file contents. -/
def FileSys : Type := String → Option String

/-- Overwrite (or create) the file at `p`. -/
def fsWrite (fs : FileSys) (p content : String) : FileSys :=
  fun q => if q = p then some content else fs q

/-- Atomic `rename(src, dst)`. -/
def fsRename (fs : FileSys) (src dst : String) : FileSys :=
  fun q => if q = dst then fs src else if q = src then none else fs q

/-- The temp-file name chosen by `atomicWriteJson`:
`` `${targetPath}.tmp.${process.pid}.${Date.now()}` ``. -/
def tmpName (targetPath : String) (pid ts : Nat) : String :=
  targetPath ++ ".tmp." ++ toString pid ++ "." ++ toString ts

/-- Interruption points of `atomicWriteJson`, in program order:
before `fs.open(tmp, "w")`, after the open (temp file created/truncated),
partway through `fh.writeFile(data)` (an arbitrary prefix is on disk), after
the write, after `fh.sync()`, after `fh.close()`, and after
`fs.rename(tmp, targetPath)`. -/
inductive AtomicWritePhase where
  | beforeOpen | afterOpen | midWrite (k : Nat) | afterWrite | afterSync | afterClose
  | afterRename
deriving DecidableEq, Repr

/-- The filesystem contents observed if `atomicWriteJson(targetPath, obj)` is
interrupted at each phase.  `data` stands for the serialized content
`JSON.stringify(obj, null, 2)`; `mkdir` does not alter any file, so it has no
phase of its own. -/
def atomicWriteJsonFsAt (fs : FileSys) (targetPath tmp data : String) :
    AtomicWritePhase → FileSys
  | .beforeOpen => fs
  | .afterOpen => fsWrite fs tmp ""
  | .midWrite k => fsWrite fs tmp (data.take k)
  | .afterWrite => fsWrite fs tmp data
  | .afterSync => fsWrite fs tmp data
  | .afterClose => fsWrite fs tmp data
  | .afterRename => fsRename (fsWrite fs tmp data) tmp targetPath

/-! ### Kernel-reducible models of the JavaScript string methods used by the
sources (`String.prototype.trim`, `.split(".")`, `.endsWith`); Lean's
built-in `String.trim`/`splitOn`/`endsWith` are positional/`Substring`-based
and do not reduce in the kernel, so the embedding works on the character
list instead. -/

/-- JavaScript `s.trim()` (ASCII whitespace suffices for the notes built
here). -/
def jsTrim (s : String) : String :=
  ⟨((s.data.dropWhile Char.isWhitespace).reverse.dropWhile Char.isWhitespace).reverse⟩

def splitDotAux : List Char → List Char → List (List Char)
  | [], acc => [acc.reverse]
  | c :: cs, acc =>
      if c = '.' then acc.reverse :: splitDotAux cs []
      else splitDotAux cs (c :: acc)

/-- JavaScript `s.split(".")`. -/
def splitOnDot (s : String) : List String :=
  (splitDotAux s.data []).map (fun l => ⟨l⟩)

/-- JavaScript `s.endsWith(sfx)`. -/
def strEndsWith (s sfx : String) : Bool :=
  List.isPrefixOf sfx.data.reverse s.data.reverse

/-! ### `store/traceStore.ts`: trace ids, `record` and `prune` -/

/-- The `generateTraceId` from `store/traceStore.ts`.  The time-ordered component
(`Date.now().toString(36)`) and the random suffix
(`crypto.randomBytes(2).toString("hex")`) are nondeterministic inputs and are
injected as the parameters `ts36` and `rand`. -/
def generateTraceId (skillName : String) (ts36 rand : String) : String :=
  String.intercalate "_" ((splitOnDot skillName).map (fun p => p.take 4))
    ++ "." ++ ts36 ++ "." ++ rand

/-- The result type of `runTracedSkill` (`middleware/withTrace.ts`):
the engine result plus the recorded trace id. -/
structure TracedResult (C : Type) where
  result : RunResult C
  trace_id : String

/-! ### `skills/executionGovernor.ts` -/

inductive Regime where
  | ACCUMULATION | EXPANSION | DISTRIBUTION | COLLAPSE | UNKNOWN
deriving DecidableEq, BEq, Repr

inductive GovernorDecision where
  | APPROVED | THROTTLED | DENIED
deriving DecidableEq, BEq, Repr

/-- The `mode` union of `ExecutionGovernorCtx`. -/
inductive GovMode where
  | PRIVATE | PUBLIC | INTERNAL
deriving DecidableEq, BEq, Repr

/-- The `debug` record: the governor only ever stores the `normalized` flag
and the cached composite score in it. -/
structure GovDebug where
  normalized : Bool := false
  compositeScore : Option ℚ := none
deriving DecidableEq, Repr

structure ExecutionGovernorCtx where
  action : String
  regime : Regime
  safety : ℚ
  conviction : ℚ
  regimeAlignment : ℚ
  riskBudget : ℚ
  executionAllowance : ℚ
  mode : Option GovMode := none
  decision : Option GovernorDecision := none
  reason : Option String := none
  throttleMs : Option ℚ := none
  debug : Option GovDebug := none
deriving DecidableEq, Repr

/-- The `clamp` from `skills/executionGovernor.ts`. -/
def clamp (n : ℚ) : ℚ := max 0 (min 100 n)

/-- JavaScript `Math.round` on the non-negative values produced here:
round half away from zero, i.e. `⌊x + 1/2⌋`. -/
def jsRound (q : ℚ) : ℚ := ((⌊q + 1/2⌋ : ℤ) : ℚ)

def compositeScore (ctx : ExecutionGovernorCtx) : ℚ :=
  jsRound (30/100 * clamp ctx.safety + 25/100 * clamp ctx.regimeAlignment +
    20/100 * clamp ctx.conviction + 15/100 * clamp ctx.riskBudget +
    10/100 * clamp ctx.executionAllowance)

structure Thresholds where
  approve : ℚ
  throttle : ℚ
deriving DecidableEq, Repr

def baseThresholds (ctx : ExecutionGovernorCtx) : Thresholds :=
  let mode := ctx.mode.getD .INTERNAL
  let t : Thresholds :=
    if mode = .PUBLIC then ⟨78, 62⟩
    else if mode = .PRIVATE then ⟨72, 55⟩
    else ⟨68, 50⟩
  if ctx.regime = .COLLAPSE then ⟨t.approve + 8, t.throttle + 6⟩
  else if ctx.regime = .DISTRIBUTION then ⟨t.approve + 4, t.throttle + 3⟩
  else t

/-- The clamping `Start.onEnter` performs on its five signals (plus the
`debug.normalized` flag it sets). -/
def govNormalize (c : ExecutionGovernorCtx) : ExecutionGovernorCtx :=
  { c with
      safety := clamp c.safety, conviction := clamp c.conviction,
      regimeAlignment := clamp c.regimeAlignment, riskBudget := clamp c.riskBudget,
      executionAllowance := clamp c.executionAllowance,
      debug := some { c.debug.getD {} with normalized := true } }

/-- The `Start.onEnter`: validate and clamp.  (The `!ctx.regime` check of the
source cannot fire in the typed model, where `regime` is an enum value.) -/
def govStartEnter : ActionFn ExecutionGovernorCtx := fun c =>
  if c.action = "" then .failCall c [] "BadInput" (some "missing action")
  else .ok (govNormalize c) []

/-- The `Guardrails.onEnter`: hard gates. -/
def govGuardrailsEnter : ActionFn ExecutionGovernorCtx := fun c =>
  if c.safety < 20 then
    .failCall c [] "BadInput" (some "safety too low to consider execution")
  else if c.executionAllowance ≤ 0 then
    .ok { c with decision := some .DENIED, reason := some "No execution allowance" } []
  else .ok c []

/-- The `Score.onEnter`: cache the composite score unless already denied. -/
def govScoreEnter : ActionFn ExecutionGovernorCtx := fun c =>
  if c.decision = some .DENIED then .ok c []
  else
    .ok { c with
          debug := some { c.debug.getD {} with compositeScore := some (compositeScore c) } } []

/-- The `Decide.onEnter`: floors, then threshold comparison. -/
def govDecideEnter : ActionFn ExecutionGovernorCtx := fun c =>
  if c.decision = some .DENIED then .ok c []
  else
    let score := (c.debug.bind (·.compositeScore)).getD (compositeScore c)
    let th := baseThresholds c
    if c.riskBudget < 15 then
      .ok { c with decision := some .DENIED, reason := some "Risk budget too low" } []
    else if c.regimeAlignment < 25 then
      .ok { c with decision := some .DENIED, reason := some "Regime misalignment" } []
    else if th.approve ≤ score then
      .ok { c with
            decision := some .APPROVED,
            reason := some ("Score " ++ toString score ++ " >= approve " ++ toString th.approve) } []
    else if th.throttle ≤ score then
      .ok { c with
            decision := some .THROTTLED,
            reason := some ("Score " ++ toString score ++ " >= throttle " ++ toString th.throttle),
            throttleMs := some (if c.regime = .COLLAPSE then 30000
              else if c.regime = .DISTRIBUTION then 15000 else 5000) } []
    else
      .ok { c with
            decision := some .DENIED,
            reason := some ("Score " ++ toString score ++ " < throttle " ++ toString th.throttle) } []

def govNotDenied : GuardFn ExecutionGovernorCtx := fun c =>
  .ok (decide (c.decision ≠ some .DENIED))

def govDenied : GuardFn ExecutionGovernorCtx := fun c =>
  .ok (decide (c.decision = some .DENIED))

def govApproved : GuardFn ExecutionGovernorCtx := fun c =>
  .ok (decide (c.decision = some .APPROVED))

def govThrottled : GuardFn ExecutionGovernorCtx := fun c =>
  .ok (decide (c.decision = some .THROTTLED))

def executionGovernorSpec : SkillSpec ExecutionGovernorCtx where
  name := "survivor.execution_governor"
  version := "0.1.0"
  start := "Start"
  terminal := ["Approved", "Throttled", "Denied"]
  fail := ["BadInput", "ActionError", "Stuck", "GuardsBlocked"]
  states :=
    [ ("Start", { onEnter := some govStartEnter }),
      ("Guardrails", { onEnter := some govGuardrailsEnter }),
      ("Score", { onEnter := some govScoreEnter }),
      ("Decide", { onEnter := some govDecideEnter }),
      ("Approved", {}), ("Throttled", {}), ("Denied", {}),
      ("BadInput", {}), ("ActionError", {}), ("Stuck", {}), ("GuardsBlocked", {}) ]
  transitions :=
    [ { «from» := "Start", «to» := "Guardrails", label := some "validate" },
      { «from» := "Guardrails", «to» := "Score", guard := some govNotDenied,
        label := some "hard gates ok" },
      { «from» := "Guardrails", «to» := "Denied", guard := some govDenied,
        label := some "hard gate denied" },
      { «from» := "Score", «to» := "Decide", label := some "score computed" },
      { «from» := "Decide", «to» := "Approved", guard := some govApproved,
        label := some "approved" },
      { «from» := "Decide", «to» := "Throttled", guard := some govThrottled,
        label := some "throttled" },
      { «from» := "Decide", «to» := "Denied", guard := some govDenied,
        label := some "denied" } ]

/-! ### `skills/refreshPipelineAtomic.ts` -/

inductive RefreshMode where
  | LOCAL_ONLY | PUBLISH_IF_AVAILABLE
deriving DecidableEq, BEq, Repr

structure LastGoodPointer where
  updatedAt : Nat
  indexPath : String
  scoresPath : String
  indexBackupPath : Option String := none
  scoresBackupPath : Option String := none
deriving DecidableEq, Repr

/-- The `ctx.pendingBackups`. -/
structure PendingBackups where
  indexBak : Option String := none
  scoresBak : Option String := none
deriving DecidableEq, Repr

/-- The `RefreshCtx` from `skills/refreshPipelineAtomic.ts`.  The JSON payloads
(`indexJson`, `scoresJson`) are abstracted as opaque strings; `adapters` is
moved out of the context and passed to the specification constructor, since
the adapters are functions over the context itself. -/
structure RefreshCtx where
  mode : RefreshMode
  intervalTag : Option String := none
  now : Option Nat := none
  baseDir : String
  dataDir : String
  indexPath : String
  scoresPath : String
  lastGoodPath : String
  hasVolume : Option Bool := none
  canWrite : Option Bool := none
  indexJson : Option String := none
  scoresJson : Option String := none
  indexCount : Option Nat := none
  scoredCount : Option Nat := none
  wrote : Option (List String) := none
  published : Option Bool := none
  lastGood : Option LastGoodPointer := none
  pendingBackups : Option PendingBackups := none
  note : Option String := none
  errorCode : Option String := none
deriving DecidableEq, Repr

structure CheckVolumeRes where
  hasVolume : Bool
  canWrite : Bool
  note : Option String := none

structure LoadLastGoodRes where
  lastGood : Option LastGoodPointer
  note : Option String := none

structure BuildIndexRes where
  indexJson : String
  indexCount : Nat
  note : Option String := none

structure ScoreIndexRes where
  scoresJson : String
  scoredCount : Nat
  note : Option String := none

structure WriteAtomicRes where
  wrote : List String
  backups : PendingBackups
  note : Option String := none

structure CommitLastGoodRes where
  lastGood : LastGoodPointer
  note : Option String := none

structure RollbackRes where
  rolledBack : Bool
  note : Option String := none

structure PublishRes where
  published : Bool
  note : Option String := none

/-- The adapter set of the pipeline (`ctx.adapters`); each adapter is an
async function that returns a stage result or throws. -/
structure RefreshAdapters where
  checkVolume : RefreshCtx → Except ErrInfo CheckVolumeRes
  loadLastGood : RefreshCtx → Except ErrInfo LoadLastGoodRes
  buildIndex : RefreshCtx → Except ErrInfo BuildIndexRes
  scoreIndex : RefreshCtx → Except ErrInfo ScoreIndexRes
  writeAtomic : RefreshCtx → Except ErrInfo WriteAtomicRes
  commitLastGood : RefreshCtx → Except ErrInfo CommitLastGoodRes
  rollback : RefreshCtx → Except ErrInfo RollbackRes
  publish : Option (RefreshCtx → Except ErrInfo PublishRes) := none

/-- The `[ctx.note, res.note].filter(Boolean).join(" | ")`. -/
def joinNote (a b : Option String) : Option String :=
  some (String.intercalate " | " (([a, b].filterMap id).filter (fun s => s != "")))

/-- The `Start.onEnter`: config validation.  (`Date.now()` is abstracted as 0;
the `adapters.*` presence checks of the source cannot fire in the model,
where the adapter record is total.) -/
def refreshStartEnter : ActionFn RefreshCtx := fun c0 =>
  let c := { c0 with now := some (c0.now.getD 0) }
  if c.baseDir = "" then .failCall c [] "BadConfig" (some "missing baseDir")
  else if c.dataDir = "" then .failCall c [] "BadConfig" (some "missing dataDir")
  else if c.indexPath = "" then .failCall c [] "BadConfig" (some "missing indexPath")
  else if c.scoresPath = "" then .failCall c [] "BadConfig" (some "missing scoresPath")
  else if c.lastGoodPath = "" then .failCall c [] "BadConfig" (some "missing lastGoodPath")
  else .ok { c with note := some (jsTrim ("refresh atomic start " ++ c.intervalTag.getD "")) } []

/-- The `DetectStorage.onEnter`: no try/catch in the source — an adapter throw
propagates to the engine. -/
def refreshDetectStorageEnter (a : RefreshAdapters) : ActionFn RefreshCtx := fun c =>
  match a.checkVolume c with
  | .error e => .threw c [] e
  | .ok res =>
      .ok { c with
            hasVolume := some res.hasVolume, canWrite := some res.canWrite,
            note := joinNote c.note res.note } []

/-- The `LoadLastGood.onEnter`: no try/catch in the source. -/
def refreshLoadLastGoodEnter (a : RefreshAdapters) : ActionFn RefreshCtx := fun c =>
  match a.loadLastGood c with
  | .error e => .threw c [] e
  | .ok res => .ok { c with lastGood := res.lastGood, note := joinNote c.note res.note } []

def refreshBuildIndexEnter (a : RefreshAdapters) : ActionFn RefreshCtx := fun c =>
  match a.buildIndex c with
  | .ok res =>
      .ok { c with
            indexJson := some res.indexJson, indexCount := some res.indexCount,
            note := joinNote c.note res.note } []
  | .error e =>
      .failCall { c with errorCode := some "INDEX_EXCEPTION" } [] "IndexFailed" (some e.message)

def refreshScoreEnter (a : RefreshAdapters) : ActionFn RefreshCtx := fun c =>
  match a.scoreIndex c with
  | .ok res =>
      .ok { c with
            scoresJson := some res.scoresJson, scoredCount := some res.scoredCount,
            note := joinNote c.note res.note } []
  | .error e =>
      .failCall { c with errorCode := some "SCORE_EXCEPTION" } [] "ScoreFailed" (some e.message)

def refreshWriteAtomicEnter (a : RefreshAdapters) : ActionFn RefreshCtx := fun c =>
  match a.writeAtomic c with
  | .ok res =>
      .ok { c with
            wrote := some res.wrote, pendingBackups := some res.backups,
            note := joinNote c.note res.note } []
  | .error e =>
      .failCall { c with errorCode := some "WRITE_ATOMIC_EXCEPTION" } [] "PartialWrite"
        (some e.message)

def refreshCommitPointerEnter (a : RefreshAdapters) : ActionFn RefreshCtx := fun c =>
  match a.commitLastGood c with
  | .ok res => .ok { c with lastGood := some res.lastGood, note := joinNote c.note res.note } []
  | .error e =>
      .failCall { c with errorCode := some "COMMIT_LAST_GOOD_EXCEPTION" } [] "CommitFailed"
        (some e.message)

def refreshPublishEnter (a : RefreshAdapters) : ActionFn RefreshCtx := fun c =>
  if c.mode = .LOCAL_ONLY then .ok { c with published := some false } []
  else
    match a.publish with
    | none => .ok { c with published := some false } []
    | some pub =>
        match pub c with
        | .ok res => .ok { c with published := some res.published } []
        | .error e =>
            .failCall { c with errorCode := some "PUBLISH_EXCEPTION" } [] "PublishFailed"
              (some e.message)

def refreshRollbackEnter (a : RefreshAdapters) : ActionFn RefreshCtx := fun c =>
  match a.rollback c with
  | .ok res => .ok { c with note := joinNote c.note res.note } []
  | .error e =>
      .failCall { c with errorCode := some "ROLLBACK_EXCEPTION" } [] "RollbackFailed"
        (some e.message)

/-- Guard `(ctx) => !ctx.hasVolume`. -/
def refreshNoVolume : GuardFn RefreshCtx := fun c => .ok (!(c.hasVolume.getD false))

/-- Guard `(ctx) => !!ctx.hasVolume && !ctx.canWrite`. -/
def refreshReadOnly : GuardFn RefreshCtx := fun c =>
  .ok ((c.hasVolume.getD false) && !(c.canWrite.getD false))

/-- Guard `(ctx) => !!ctx.hasVolume && !!ctx.canWrite`. -/
def refreshVolumeOk : GuardFn RefreshCtx := fun c =>
  .ok ((c.hasVolume.getD false) && (c.canWrite.getD false))

/-- Guard `(ctx) => ctx.indexJson !== undefined`. -/
def refreshIndexReady : GuardFn RefreshCtx := fun c => .ok c.indexJson.isSome

/-- Guard `(ctx) => ctx.scoresJson !== undefined`. -/
def refreshScoresReady : GuardFn RefreshCtx := fun c => .ok c.scoresJson.isSome

def refreshPipelineAtomicSpec (a : RefreshAdapters) : SkillSpec RefreshCtx where
  name := "verity.refresh_pipeline_atomic"
  version := "0.2.0"
  start := "Start"
  terminal := ["Done"]
  fail := ["BadConfig", "NoVolume", "ReadOnlyVolume", "IndexFailed", "ScoreFailed",
    "PartialWrite", "WriteFailed", "CommitFailed", "RollbackFailed", "PublishFailed",
    "ActionError", "Stuck", "GuardsBlocked"]
  states :=
    [ ("Start", { onEnter := some refreshStartEnter }),
      ("DetectStorage", { onEnter := some (refreshDetectStorageEnter a) }),
      ("LoadLastGood", { onEnter := some (refreshLoadLastGoodEnter a) }),
      ("EnsureWritable", {}),
      ("BuildIndex", { onEnter := some (refreshBuildIndexEnter a) }),
      ("Score", { onEnter := some (refreshScoreEnter a) }),
      ("WriteAtomic", { onEnter := some (refreshWriteAtomicEnter a) }),
      ("CommitPointer", { onEnter := some (refreshCommitPointerEnter a) }),
      ("Publish", { onEnter := some (refreshPublishEnter a) }),
      ("Rollback", { onEnter := some (refreshRollbackEnter a) }),
      ("Done", {}), ("BadConfig", {}), ("NoVolume", {}), ("ReadOnlyVolume", {}),
      ("IndexFailed", {}), ("ScoreFailed", {}), ("PartialWrite", {}), ("WriteFailed", {}),
      ("CommitFailed", {}), ("RollbackFailed", {}), ("PublishFailed", {}),
      ("ActionError", {}), ("Stuck", {}), ("GuardsBlocked", {}) ]
  transitions :=
    [ { «from» := "Start", «to» := "DetectStorage", label := some "init ok" },
      { «from» := "DetectStorage", «to» := "NoVolume", guard := some refreshNoVolume,
        label := some "no volume" },
      { «from» := "DetectStorage", «to» := "ReadOnlyVolume", guard := some refreshReadOnly,
        label := some "read-only" },
      { «from» := "DetectStorage", «to» := "LoadLastGood", guard := some refreshVolumeOk,
        label := some "ok" },
      { «from» := "LoadLastGood", «to» := "EnsureWritable", label := some "loaded pointer" },
      { «from» := "EnsureWritable", «to» := "BuildIndex", label := some "go index" },
      { «from» := "BuildIndex", «to» := "Score", guard := some refreshIndexReady,
        label := some "go score" },
      { «from» := "Score", «to» := "WriteAtomic", guard := some refreshScoresReady,
        label := some "go write" },
      { «from» := "WriteAtomic", «to» := "CommitPointer", label := some "commit pointer" },
      { «from» := "CommitPointer", «to» := "Publish", label := some "optional publish" },
      { «from» := "Publish", «to» := "Done", label := some "done" },
      { «from» := "PartialWrite", «to» := "Rollback", label := some "rollback after partial" },
      { «from» := "CommitFailed", «to» := "Rollback", label := some "rollback after commit failed" },
      { «from» := "Rollback", «to» := "Done", label := some "done after rollback" } ]

/-! ### `middleware/withTrace.ts` and the rest of `store/traceStore.ts` -/

namespace TraceStore

/-- The `TraceStore.record(result)`: generate the id, serialize the summary and
write it with temp-write-then-rename.  The outcomes of the two filesystem
calls (`fs.writeFile`, `fs.rename`) are injected; faithfully to the source,
there is no try/catch here, so a filesystem failure propagates to the
caller. -/
def record (skillName ts36 rand : String)
    (writeOutcome renameOutcome : Except ErrInfo Unit) : Except ErrInfo String := do
  let trace_id := generateTraceId skillName ts36 rand
  let _ ← writeOutcome
  let _ ← renameOutcome
  pure trace_id

/-- The grouping key used by `prune`:
`f.split(".").slice(0, 2).join(".")` — the first two dot-segments of the
file name. -/
def groupKey (f : String) : String :=
  String.intercalate "." ((splitOnDot f).take 2)

/-- Insertion into the `bySkill` record, preserving JavaScript object key
insertion order and per-key push order. -/
def groupInsert (groups : List (String × List String)) (key f : String) :
    List (String × List String) :=
  match groups with
  | [] => [(key, [f])]
  | (k, fs) :: rest =>
      if k = key then (k, fs ++ [f]) :: rest
      else (k, fs) :: groupInsert rest key f

/-- JavaScript `Array.prototype.sort()` on strings: insertion sort by the
lexicographic order. -/
def insertSorted (x : String) : List String → List String
  | [] => [x]
  | y :: ys => if y < x then y :: insertSorted x ys else x :: y :: ys

def sortStrings : List String → List String
  | [] => []
  | x :: xs => insertSorted x (sortStrings xs)

/-- The `TraceStore.prune(keepPerSkill)` as a function of the file names found
in the traces directory; every `unlink` succeeds, and the number of deleted
records is returned. -/
def prune (dirFiles : List String) (keepPerSkill : Nat) : Nat :=
  let files := (sortStrings (dirFiles.filter (fun f => strEndsWith f ".json"))).reverse
  let groups := files.foldl (fun gs f => groupInsert gs (groupKey f) f) []
  (groups.map (fun g => (g.2.drop keepPerSkill).length)).sum

end TraceStore

/-- The `runTracedSkill` from `middleware/withTrace.ts`: run the skill, then
record the result to the trace store; a `record` failure is caught and the
sentinel id `"unrecorded"` is kept, so recording never crashes the caller.
`recordOutcome` is the outcome of the `store.record(result)` call. -/
def runTracedSkill (spec : SkillSpec C) (ctx : C) (opts : RunOpts)
    (recordOutcome : RunResult C → Except ErrInfo String) : Option (TracedResult C) :=
  (runSkill spec ctx opts).map fun r =>
    { result := r,
      trace_id :=
        match recordOutcome r with
        | .ok id => id
        | .error _ => "unrecorded" }

/-! ### Concrete fixtures used by counterexamples and witnesses -/

/-- Adapter set whose `writeAtomic` throws (e.g. the disk fills up while the
artifacts are being written); all earlier stages succeed. -/
def cexAdapters : RefreshAdapters where
  checkVolume := fun _ => .ok { hasVolume := true, canWrite := true, note := some "volume ok: /data" }
  loadLastGood := fun _ => .ok { lastGood := none, note := some "no last_good yet" }
  buildIndex := fun _ =>
    .ok { indexJson := "index-payload", indexCount := 0, note := some "indexed 0 events" }
  scoreIndex := fun _ =>
    .ok { scoresJson := "scores-payload", scoredCount := 0, note := some "scored 0 agents" }
  writeAtomic := fun _ => .error { name := "Error", message := "ENOSPC: no space left on device" }
  commitLastGood := fun c =>
    .ok { lastGood := { updatedAt := 0, indexPath := c.indexPath, scoresPath := c.scoresPath } }
  rollback := fun _ => .ok { rolledBack := true, note := some "restored index from backup" }
  publish := none

def cexRefreshCtx : RefreshCtx where
  mode := .LOCAL_ONLY
  baseDir := "/app"
  dataDir := "/data"
  indexPath := "/data/index.json"
  scoresPath := "/data/scores.json"
  lastGoodPath := "/data/.last_good.json"

/-- Governor input with `executionAllowance = 0` but `safety = 10 < 20`:
the run dies at the safety gate, not at a DENIED decision. -/
def lowSafetyGovCtx : ExecutionGovernorCtx where
  action := "trade.execute"
  regime := .ACCUMULATION
  safety := 10
  conviction := 80
  regimeAlignment := 85
  riskBudget := 75
  executionAllowance := 0
  mode := some .PRIVATE

/-- Scenario C of the specification (the `action` field, absent from the
spec's listing, is the one the integration test uses). -/
def scenarioCCtx : ExecutionGovernorCtx where
  action := "trade.execute"
  regime := .ACCUMULATION
  safety := 90
  conviction := 80
  regimeAlignment := 85
  riskBudget := 75
  executionAllowance := 100
  mode := some .PRIVATE

/-- A governor input satisfying the amended C8 hypotheses. -/
def zeroAllowanceGovCtx : ExecutionGovernorCtx where
  action := "trade.execute"
  regime := .COLLAPSE
  safety := 95
  conviction := 10
  regimeAlignment := 5
  riskBudget := 3
  executionAllowance := 0
  mode := some .PUBLIC

/-- A state whose enter hook throws. -/
def demoThrowEnter : ActionFn Nat := fun n =>
  .threw n [] { name := "TypeError", message := "boom" }

def demoThrowSpec : SkillSpec Nat where
  name := "demo.throwing"
  version := "0.0.1"
  start := "S"
  terminal := ["T"]
  fail := ["ActionError"]
  states := [("S", { onEnter := some demoThrowEnter }), ("T", {}), ("ActionError", {})]
  transitions := [{ «from» := "S", «to» := "T" }]

def demoTrueGuard : GuardFn Nat := fun _ => .ok true

def demoThrowGuard : GuardFn Nat := fun _ =>
  .error { name := "RangeError", message := "guard blew up" }

/-- Two transitions out of `A`, both with guards that are true. -/
def demoFirstMatchSpec : SkillSpec Nat where
  name := "demo.firstmatch"
  version := "0.0.1"
  start := "A"
  terminal := ["B", "Z"]
  fail := []
  states := [("A", {}), ("B", {}), ("Z", {})]
  transitions :=
    [ { «from» := "A", «to» := "B", guard := some demoTrueGuard },
      { «from» := "A", «to» := "Z", guard := some demoTrueGuard } ]

/-- First a throwing guard, then a passing one. -/
def demoGuardThrowSpec : SkillSpec Nat where
  name := "demo.guardthrow"
  version := "0.0.1"
  start := "A"
  terminal := ["B", "Z"]
  fail := []
  states := [("A", {}), ("B", {}), ("Z", {})]
  transitions :=
    [ { «from» := "A", «to» := "Z", guard := some demoThrowGuard },
      { «from» := "A", «to» := "B", guard := some demoTrueGuard } ]

/-- Engine state after iteration 1 of the C1 counterexample run. -/
def c1State1 : EngSt RefreshCtx :=
  ⟨"DetectStorage",
   { mode := .LOCAL_ONLY,
     intervalTag := none,
     now := some 0,
     baseDir := "/app",
     dataDir := "/data",
     indexPath := "/data/index.json",
     scoresPath := "/data/scores.json",
     lastGoodPath := "/data/.last_good.json",
     hasVolume := none,
     canWrite := none,
     indexJson := none,
     scoresJson := none,
     indexCount := none,
     scoredCount := none,
     wrote := none,
     published := none,
     lastGood := none,
     pendingBackups := none,
     note := some "refresh atomic start",
     errorCode := none },
   1,
   [⟨.enter, some "Start", none, none, none, none, none, none⟩,
     ⟨.transition, none, some "Start", some "DetectStorage", some "init ok", none, none, none⟩]⟩

/-- Engine state after iteration 2 of the C1 counterexample run. -/
def c1State2 : EngSt RefreshCtx :=
  ⟨"LoadLastGood",
   { mode := .LOCAL_ONLY,
     intervalTag := none,
     now := some 0,
     baseDir := "/app",
     dataDir := "/data",
     indexPath := "/data/index.json",
     scoresPath := "/data/scores.json",
     lastGoodPath := "/data/.last_good.json",
     hasVolume := some true,
     canWrite := some true,
     indexJson := none,
     scoresJson := none,
     indexCount := none,
     scoredCount := none,
     wrote := none,
     published := none,
     lastGood := none,
     pendingBackups := none,
     note := some "refresh atomic start | volume ok: /data",
     errorCode := none },
   2,
   [⟨.enter, some "Start", none, none, none, none, none, none⟩,
     ⟨.transition, none, some "Start", some "DetectStorage", some "init ok", none, none, none⟩,
     ⟨.enter, some "DetectStorage", none, none, none, none, none, none⟩,
     ⟨.guard, some "DetectStorage", none, some "NoVolume", some "no volume", some false, none, none⟩,
     ⟨.guard, some "DetectStorage", none, some "ReadOnlyVolume", some "read-only", some false, none, none⟩,
     ⟨.guard, some "DetectStorage", none, some "LoadLastGood", some "ok", some true, none, none⟩,
     ⟨.transition, none, some "DetectStorage", some "LoadLastGood", some "ok", none, none, none⟩]⟩

/-- Engine state after iteration 3 of the C1 counterexample run. -/
def c1State3 : EngSt RefreshCtx :=
  ⟨"EnsureWritable",
   { mode := .LOCAL_ONLY,
     intervalTag := none,
     now := some 0,
     baseDir := "/app",
     dataDir := "/data",
     indexPath := "/data/index.json",
     scoresPath := "/data/scores.json",
     lastGoodPath := "/data/.last_good.json",
     hasVolume := some true,
     canWrite := some true,
     indexJson := none,
     scoresJson := none,
     indexCount := none,
     scoredCount := none,
     wrote := none,
     published := none,
     lastGood := none,
     pendingBackups := none,
     note := some "refresh atomic start | volume ok: /data | no last_good yet",
     errorCode := none },
   3,
   [⟨.enter, some "Start", none, none, none, none, none, none⟩,
     ⟨.transition, none, some "Start", some "DetectStorage", some "init ok", none, none, none⟩,
     ⟨.enter, some "DetectStorage", none, none, none, none, none, none⟩,
     ⟨.guard, some "DetectStorage", none, some "NoVolume", some "no volume", some false, none, none⟩,
     ⟨.guard, some "DetectStorage", none, some "ReadOnlyVolume", some "read-only", some false, none, none⟩,
     ⟨.guard, some "DetectStorage", none, some "LoadLastGood", some "ok", some true, none, none⟩,
     ⟨.transition, none, some "DetectStorage", some "LoadLastGood", some "ok", none, none, none⟩,
     ⟨.enter, some "LoadLastGood", none, none, none, none, none, none⟩,
     ⟨.transition, none, some "LoadLastGood", some "EnsureWritable", some "loaded pointer", none, none, none⟩]⟩

/-- Engine state after iteration 4 of the C1 counterexample run. -/
def c1State4 : EngSt RefreshCtx :=
  ⟨"BuildIndex",
   { mode := .LOCAL_ONLY,
     intervalTag := none,
     now := some 0,
     baseDir := "/app",
     dataDir := "/data",
     indexPath := "/data/index.json",
     scoresPath := "/data/scores.json",
     lastGoodPath := "/data/.last_good.json",
     hasVolume := some true,
     canWrite := some true,
     indexJson := none,
     scoresJson := none,
     indexCount := none,
     scoredCount := none,
     wrote := none,
     published := none,
     lastGood := none,
     pendingBackups := none,
     note := some "refresh atomic start | volume ok: /data | no last_good yet",
     errorCode := none },
   4,
   [⟨.enter, some "Start", none, none, none, none, none, none⟩,
     ⟨.transition, none, some "Start", some "DetectStorage", some "init ok", none, none, none⟩,
     ⟨.enter, some "DetectStorage", none, none, none, none, none, none⟩,
     ⟨.guard, some "DetectStorage", none, some "NoVolume", some "no volume", some false, none, none⟩,
     ⟨.guard, some "DetectStorage", none, some "ReadOnlyVolume", some "read-only", some false, none, none⟩,
     ⟨.guard, some "DetectStorage", none, some "LoadLastGood", some "ok", some true, none, none⟩,
     ⟨.transition, none, some "DetectStorage", some "LoadLastGood", some "ok", none, none, none⟩,
     ⟨.enter, some "LoadLastGood", none, none, none, none, none, none⟩,
     ⟨.transition, none, some "LoadLastGood", some "EnsureWritable", some "loaded pointer", none, none, none⟩,
     ⟨.enter, some "EnsureWritable", none, none, none, none, none, none⟩,
     ⟨.transition, none, some "EnsureWritable", some "BuildIndex", some "go index", none, none, none⟩]⟩

/-- Engine state after iteration 5 of the C1 counterexample run. -/
def c1State5 : EngSt RefreshCtx :=
  ⟨"Score",
   { mode := .LOCAL_ONLY,
     intervalTag := none,
     now := some 0,
     baseDir := "/app",
     dataDir := "/data",
     indexPath := "/data/index.json",
     scoresPath := "/data/scores.json",
     lastGoodPath := "/data/.last_good.json",
     hasVolume := some true,
     canWrite := some true,
     indexJson := some "index-payload",
     scoresJson := none,
     indexCount := some 0,
     scoredCount := none,
     wrote := none,
     published := none,
     lastGood := none,
     pendingBackups := none,
     note := some "refresh atomic start | volume ok: /data | no last_good yet | indexed 0 events",
     errorCode := none },
   5,
   [⟨.enter, some "Start", none, none, none, none, none, none⟩,
     ⟨.transition, none, some "Start", some "DetectStorage", some "init ok", none, none, none⟩,
     ⟨.enter, some "DetectStorage", none, none, none, none, none, none⟩,
     ⟨.guard, some "DetectStorage", none, some "NoVolume", some "no volume", some false, none, none⟩,
     ⟨.guard, some "DetectStorage", none, some "ReadOnlyVolume", some "read-only", some false, none, none⟩,
     ⟨.guard, some "DetectStorage", none, some "LoadLastGood", some "ok", some true, none, none⟩,
     ⟨.transition, none, some "DetectStorage", some "LoadLastGood", some "ok", none, none, none⟩,
     ⟨.enter, some "LoadLastGood", none, none, none, none, none, none⟩,
     ⟨.transition, none, some "LoadLastGood", some "EnsureWritable", some "loaded pointer", none, none, none⟩,
     ⟨.enter, some "EnsureWritable", none, none, none, none, none, none⟩,
     ⟨.transition, none, some "EnsureWritable", some "BuildIndex", some "go index", none, none, none⟩,
     ⟨.enter, some "BuildIndex", none, none, none, none, none, none⟩,
     ⟨.guard, some "BuildIndex", none, some "Score", some "go score", some true, none, none⟩,
     ⟨.transition, none, some "BuildIndex", some "Score", some "go score", none, none, none⟩]⟩

/-- Engine state after iteration 6 of the C1 counterexample run. -/
def c1State6 : EngSt RefreshCtx :=
  ⟨"WriteAtomic",
   { mode := .LOCAL_ONLY,
     intervalTag := none,
     now := some 0,
     baseDir := "/app",
     dataDir := "/data",
     indexPath := "/data/index.json",
     scoresPath := "/data/scores.json",
     lastGoodPath := "/data/.last_good.json",
     hasVolume := some true,
     canWrite := some true,
     indexJson := some "index-payload",
     scoresJson := some "scores-payload",
     indexCount := some 0,
     scoredCount := some 0,
     wrote := none,
     published := none,
     lastGood := none,
     pendingBackups := none,
     note := some "refresh atomic start | volume ok: /data | no last_good yet | indexed 0 events | scored 0 agents",
     errorCode := none },
   6,
   [⟨.enter, some "Start", none, none, none, none, none, none⟩,
     ⟨.transition, none, some "Start", some "DetectStorage", some "init ok", none, none, none⟩,
     ⟨.enter, some "DetectStorage", none, none, none, none, none, none⟩,
     ⟨.guard, some "DetectStorage", none, some "NoVolume", some "no volume", some false, none, none⟩,
     ⟨.guard, some "DetectStorage", none, some "ReadOnlyVolume", some "read-only", some false, none, none⟩,
     ⟨.guard, some "DetectStorage", none, some "LoadLastGood", some "ok", some true, none, none⟩,
     ⟨.transition, none, some "DetectStorage", some "LoadLastGood", some "ok", none, none, none⟩,
     ⟨.enter, some "LoadLastGood", none, none, none, none, none, none⟩,
     ⟨.transition, none, some "LoadLastGood", some "EnsureWritable", some "loaded pointer", none, none, none⟩,
     ⟨.enter, some "EnsureWritable", none, none, none, none, none, none⟩,
     ⟨.transition, none, some "EnsureWritable", some "BuildIndex", some "go index", none, none, none⟩,
     ⟨.enter, some "BuildIndex", none, none, none, none, none, none⟩,
     ⟨.guard, some "BuildIndex", none, some "Score", some "go score", some true, none, none⟩,
     ⟨.transition, none, some "BuildIndex", some "Score", some "go score", none, none, none⟩,
     ⟨.enter, some "Score", none, none, none, none, none, none⟩,
     ⟨.guard, some "Score", none, some "WriteAtomic", some "go write", some true, none, none⟩,
     ⟨.transition, none, some "Score", some "WriteAtomic", some "go write", none, none, none⟩]⟩

/-- The engine state at the moment the `SkillFail` for `PartialWrite` is
thrown in iteration 7 of the C1 counterexample run. -/
def c1StateFail : EngSt RefreshCtx :=
  ⟨"PartialWrite",
   { mode := .LOCAL_ONLY,
     intervalTag := none,
     now := some 0,
     baseDir := "/app",
     dataDir := "/data",
     indexPath := "/data/index.json",
     scoresPath := "/data/scores.json",
     lastGoodPath := "/data/.last_good.json",
     hasVolume := some true,
     canWrite := some true,
     indexJson := some "index-payload",
     scoresJson := some "scores-payload",
     indexCount := some 0,
     scoredCount := some 0,
     wrote := none,
     published := none,
     lastGood := none,
     pendingBackups := none,
     note := some "refresh atomic start | volume ok: /data | no last_good yet | indexed 0 events | scored 0 agents",
     errorCode := some "WRITE_ATOMIC_EXCEPTION" },
   7,
   [⟨.enter, some "Start", none, none, none, none, none, none⟩,
     ⟨.transition, none, some "Start", some "DetectStorage", some "init ok", none, none, none⟩,
     ⟨.enter, some "DetectStorage", none, none, none, none, none, none⟩,
     ⟨.guard, some "DetectStorage", none, some "NoVolume", some "no volume", some false, none, none⟩,
     ⟨.guard, some "DetectStorage", none, some "ReadOnlyVolume", some "read-only", some false, none, none⟩,
     ⟨.guard, some "DetectStorage", none, some "LoadLastGood", some "ok", some true, none, none⟩,
     ⟨.transition, none, some "DetectStorage", some "LoadLastGood", some "ok", none, none, none⟩,
     ⟨.enter, some "LoadLastGood", none, none, none, none, none, none⟩,
     ⟨.transition, none, some "LoadLastGood", some "EnsureWritable", some "loaded pointer", none, none, none⟩,
     ⟨.enter, some "EnsureWritable", none, none, none, none, none, none⟩,
     ⟨.transition, none, some "EnsureWritable", some "BuildIndex", some "go index", none, none, none⟩,
     ⟨.enter, some "BuildIndex", none, none, none, none, none, none⟩,
     ⟨.guard, some "BuildIndex", none, some "Score", some "go score", some true, none, none⟩,
     ⟨.transition, none, some "BuildIndex", some "Score", some "go score", none, none, none⟩,
     ⟨.enter, some "Score", none, none, none, none, none, none⟩,
     ⟨.guard, some "Score", none, some "WriteAtomic", some "go write", some true, none, none⟩,
     ⟨.transition, none, some "Score", some "WriteAtomic", some "go write", none, none, none⟩,
     ⟨.enter, some "WriteAtomic", none, none, none, none, none, none⟩,
     ⟨.transition, none, some "WriteAtomic", some "PartialWrite", some "FAIL", none, none, none⟩,
     ⟨.error, some "PartialWrite", none, none, none, none, some "ENOSPC: no space left on device", some ⟨"Fail", "ENOSPC: no space left on device"⟩⟩]⟩

/-- Engine state after iteration 1 of the scenario-C governor run. -/
def c9State1 : EngSt ExecutionGovernorCtx :=
  ⟨"Guardrails",
   { action := "trade.execute",
     regime := Regime.ACCUMULATION,
     safety := 90,
     conviction := 80,
     regimeAlignment := 85,
     riskBudget := 75,
     executionAllowance := 100,
     mode := some (GovMode.PRIVATE),
     decision := none,
     reason := none,
     throttleMs := none,
     debug := some { normalized := true, compositeScore := none } },
   1,
   [⟨.enter, some "Start", none, none, none, none, none, none⟩,
     ⟨.transition, none, some "Start", some "Guardrails", some "validate", none, none, none⟩]⟩

/-- Engine state after iteration 2 of the scenario-C governor run. -/
def c9State2 : EngSt ExecutionGovernorCtx :=
  ⟨"Score",
   { action := "trade.execute",
     regime := Regime.ACCUMULATION,
     safety := 90,
     conviction := 80,
     regimeAlignment := 85,
     riskBudget := 75,
     executionAllowance := 100,
     mode := some (GovMode.PRIVATE),
     decision := none,
     reason := none,
     throttleMs := none,
     debug := some { normalized := true, compositeScore := none } },
   2,
   [⟨.enter, some "Start", none, none, none, none, none, none⟩,
     ⟨.transition, none, some "Start", some "Guardrails", some "validate", none, none, none⟩,
     ⟨.enter, some "Guardrails", none, none, none, none, none, none⟩,
     ⟨.guard, some "Guardrails", none, some "Score", some "hard gates ok", some true, none, none⟩,
     ⟨.transition, none, some "Guardrails", some "Score", some "hard gates ok", none, none, none⟩]⟩

/-- Engine state after iteration 3 of the scenario-C governor run. -/
def c9State3 : EngSt ExecutionGovernorCtx :=
  ⟨"Decide",
   { action := "trade.execute",
     regime := Regime.ACCUMULATION,
     safety := 90,
     conviction := 80,
     regimeAlignment := 85,
     riskBudget := 75,
     executionAllowance := 100,
     mode := some (GovMode.PRIVATE),
     decision := none,
     reason := none,
     throttleMs := none,
     debug := some { normalized := true, compositeScore := some 86 } },
   3,
   [⟨.enter, some "Start", none, none, none, none, none, none⟩,
     ⟨.transition, none, some "Start", some "Guardrails", some "validate", none, none, none⟩,
     ⟨.enter, some "Guardrails", none, none, none, none, none, none⟩,
     ⟨.guard, some "Guardrails", none, some "Score", some "hard gates ok", some true, none, none⟩,
     ⟨.transition, none, some "Guardrails", some "Score", some "hard gates ok", none, none, none⟩,
     ⟨.enter, some "Score", none, none, none, none, none, none⟩,
     ⟨.transition, none, some "Score", some "Decide", some "score computed", none, none, none⟩]⟩

/-- Engine state after iteration 4 of the scenario-C governor run. -/
def c9State4 : EngSt ExecutionGovernorCtx :=
  ⟨"Approved",
   { action := "trade.execute",
     regime := Regime.ACCUMULATION,
     safety := 90,
     conviction := 80,
     regimeAlignment := 85,
     riskBudget := 75,
     executionAllowance := 100,
     mode := some (GovMode.PRIVATE),
     decision := some (GovernorDecision.APPROVED),
     reason := some "Score 86 >= approve 72",
     throttleMs := none,
     debug := some { normalized := true, compositeScore := some 86 } },
   4,
   [⟨.enter, some "Start", none, none, none, none, none, none⟩,
     ⟨.transition, none, some "Start", some "Guardrails", some "validate", none, none, none⟩,
     ⟨.enter, some "Guardrails", none, none, none, none, none, none⟩,
     ⟨.guard, some "Guardrails", none, some "Score", some "hard gates ok", some true, none, none⟩,
     ⟨.transition, none, some "Guardrails", some "Score", some "hard gates ok", none, none, none⟩,
     ⟨.enter, some "Score", none, none, none, none, none, none⟩,
     ⟨.transition, none, some "Score", some "Decide", some "score computed", none, none, none⟩,
     ⟨.enter, some "Decide", none, none, none, none, none, none⟩,
     ⟨.guard, some "Decide", none, some "Approved", some "approved", some true, none, none⟩,
     ⟨.transition, none, some "Decide", some "Approved", some "approved", none, none, none⟩]⟩

/-! ### Engine lemmas: the step counter and loop totality -/

theorem failTrace_steps (st : EngSt C) (f : String) (note : Option String) :
    (failTrace st f note).steps = st.steps := by
  cases note <;> rfl

theorem hookFail_failed {st st' : EngSt C} {f n f' m}
    (h : hookFail st f n = .failed st' f' m) : st'.steps = st.steps ∧ f' = f := by
  simp only [hookFail, HookOut.failed.injEq] at h
  obtain ⟨h1, h2, -⟩ := h
  exact ⟨by rw [← h1]; exact failTrace_steps st f n, h2.symm⟩

theorem doFail_failed {st st' : EngSt C} {f n f' m}
    (h : doFail st f n = .failed st' f' m) : st'.steps = st.steps ∧ f' = f := by
  simp only [doFail, IterOut.failed.injEq] at h
  obtain ⟨h1, h2, -⟩ := h
  exact ⟨by rw [← h1]; exact failTrace_steps st f n, h2.symm⟩

theorem doFail_not_next {st st' : EngSt C} {f n} (h : doFail st f n = .next st') : False := by
  simp [doFail] at h

theorem runHook_ok_steps {st st' : EngSt C} {hook note}
    (h : runHook st hook note = .ok st') : st'.steps = st.steps := by
  cases hook with
  | none => simp only [runHook] at h; cases h; rfl
  | some f =>
      simp only [runHook] at h
      split at h
      · cases h; rfl
      · exact absurd h (by simp [hookFail])
      · exact absurd h (by simp [hookFail])

theorem runHook_failed_steps {st st' : EngSt C} {hook note f m}
    (h : runHook st hook note = .failed st' f m) : st'.steps = st.steps := by
  cases hook with
  | none => simp only [runHook] at h; cases h
  | some fn =>
      simp only [runHook] at h
      split at h
      · cases h
      · rename_i c evs fs n heq
        have := (hookFail_failed h).1
        simp only [this]
      · rename_i c evs err heq
        have := (hookFail_failed h).1
        simp only [this]

theorem finishMove_steps {st st' : EngSt C} {t} (h : finishMove st t = .next st') :
    st'.steps = st.steps := by
  simp only [finishMove, IterOut.next.injEq] at h
  rw [← h]; simp [pushEv]

theorem finishMove_not_failed {st st' : EngSt C} {t f m}
    (h : finishMove st t = .failed st' f m) : False := by
  simp [finishMove] at h

theorem takeTransition_next_steps {st st' : EngSt C} {d t}
    (h : takeTransition st d t = .next st') : st'.steps = st.steps := by
  simp only [takeTransition] at h
  split at h
  · exact finishMove_steps h
  · split at h
    · exact absurd h (by simp)
    · rename_i st1 heq
      have h1 := runHook_ok_steps heq
      rw [finishMove_steps h, h1]
      rfl

theorem takeTransition_failed_steps {st st' : EngSt C} {d t f m}
    (h : takeTransition st d t = .failed st' f m) : st'.steps = st.steps := by
  simp only [takeTransition] at h
  split at h
  · exact absurd h finishMove_not_failed
  · split at h
    · rename_i st2 f2 m2 heq
      cases h
      have h1 := runHook_failed_steps heq
      simpa [pushEv] using h1
    · exact absurd h finishMove_not_failed

theorem stepWithDef_next_steps {spec : SkillSpec C} {st st' : EngSt C} {d}
    (h : stepWithDef spec st d = .next st') : st'.steps = st.steps := by
  simp only [stepWithDef] at h
  split at h
  · cases h
  · rename_i st1 heq
    have h1 : st1.steps = st.steps := by
      have := runHook_ok_steps heq
      simpa [pushEv] using this
    split at h
    · exact absurd h doFail_not_next
    · split at h
      · exact absurd h doFail_not_next
      · rw [takeTransition_next_steps h]
        exact h1

theorem stepWithDef_failed_steps {spec : SkillSpec C} {st st' : EngSt C} {d f m}
    (h : stepWithDef spec st d = .failed st' f m) : st'.steps = st.steps := by
  simp only [stepWithDef] at h
  split at h
  · rename_i heq
    cases h
    have := runHook_failed_steps heq
    simpa [pushEv] using this
  · rename_i st1 heq
    have h1 : st1.steps = st.steps := by
      have := runHook_ok_steps heq
      simpa [pushEv] using this
    split at h
    · rw [(doFail_failed h).1]; exact h1
    · split at h
      · rw [(doFail_failed h).1]; exact h1
      · rw [takeTransition_failed_steps h]; exact h1

theorem stepIter_next_steps {spec : SkillSpec C} {maxSteps : Nat} {allowed} {st st' : EngSt C}
    (h : stepIter spec maxSteps allowed st = .next st') :
    st'.steps = st.steps + 1 ∧ st.steps + 1 ≤ maxSteps := by
  simp only [stepIter] at h
  split at h
  · exact absurd h doFail_not_next
  · rename_i hle
    refine ⟨?_, by omega⟩
    split at h
    · exact absurd h doFail_not_next
    · split at h
      · exact absurd h doFail_not_next
      · exact stepWithDef_next_steps h

theorem stepIter_failed_steps {spec : SkillSpec C} {maxSteps : Nat} {allowed}
    {st st' : EngSt C} {f m}
    (h : stepIter spec maxSteps allowed st = .failed st' f m) :
    st'.steps = st.steps + 1 ∧ (maxSteps < st.steps + 1 → f = "EngineTimeout") := by
  simp only [stepIter] at h
  split at h
  · obtain ⟨h1, h2⟩ := doFail_failed h
    exact ⟨h1, fun _ => h2⟩
  · rename_i hle
    refine ⟨?_, fun hc => absurd hc hle⟩
    split at h
    · exact (doFail_failed h).1
    · split at h
      · exact (doFail_failed h).1
      · exact stepWithDef_failed_steps h

theorem catchResult_steps (spec : SkillSpec C) (st : EngSt C) (f m : String) :
    (catchResult spec st f m).steps = st.steps := by
  simp only [catchResult]
  split <;> rfl

theorem catchResult_endState (spec : SkillSpec C) (st : EngSt C) (f m : String) :
    (catchResult spec st f m).endState = f := by
  simp only [catchResult]

theorem catchResult_ok (spec : SkillSpec C) (st : EngSt C) (f m : String) :
    (catchResult spec st f m).ok = false := by
  simp only [catchResult]

theorem finishResult_steps (spec : SkillSpec C) (st : EngSt C) :
    (finishResult spec st).steps = st.steps := rfl

/-- With fuel `maxSteps + 1 - steps`, the loop always returns a result, and
either the step counter stayed within the budget or the run was cut off by
the built-in `EngineTimeout` fail state. -/
theorem runLoop_total (spec : SkillSpec C) (maxSteps : Nat) (allowed : Option (List String)) :
    ∀ (fuel : Nat) (st : EngSt C), st.steps + fuel = maxSteps + 1 → st.steps ≤ maxSteps →
      ∃ r, runLoop spec maxSteps allowed fuel st = some r ∧
        (r.steps ≤ maxSteps ∨ (r.steps = maxSteps + 1 ∧ r.endState = "EngineTimeout")) := by
  intro fuel
  induction fuel with
  | zero => intro st h1 h2; omega
  | succ fl ih =>
      intro st h1 h2
      rw [runLoop]
      by_cases hterm : isTerminal spec st.current
      · refine ⟨finishResult spec st, by simp [hterm], Or.inl ?_⟩
        rw [finishResult_steps]; exact h2
      · simp only [hterm, Bool.false_eq_true, if_false]
        cases hstep : stepIter spec maxSteps allowed st with
        | next st' =>
            obtain ⟨hs, hle⟩ := stepIter_next_steps hstep
            obtain ⟨r, hr, hb⟩ := ih st' (by omega) (by omega)
            exact ⟨r, hr, hb⟩
        | failed st' fs m =>
            obtain ⟨hs, htm⟩ := stepIter_failed_steps hstep
            refine ⟨catchResult spec st' fs m, rfl, ?_⟩
            rw [catchResult_steps, catchResult_endState, hs]
            by_cases hcut : maxSteps < st.steps + 1
            · exact Or.inr ⟨by omega, htm hcut⟩
            · exact Or.inl (by omega)

/-- One loop iteration that continues. -/
theorem runLoop_step_next {spec : SkillSpec C} {m : Nat} {a : Option (List String)}
    {st st' : EngSt C} {fuel : Nat}
    (hterm : isTerminal spec st.current = false)
    (hstep : stepIter spec m a st = .next st') :
    runLoop spec m a (fuel + 1) st = runLoop spec m a fuel st' := by
  rw [runLoop]
  simp [hterm, hstep]

/-- One loop iteration in which a `SkillFail` is thrown: the loop returns
the caught result. -/
theorem runLoop_step_failed {spec : SkillSpec C} {m : Nat} {a : Option (List String)}
    {st st' : EngSt C} {f msg : String} {fuel : Nat}
    (hterm : isTerminal spec st.current = false)
    (hstep : stepIter spec m a st = .failed st' f msg) :
    runLoop spec m a (fuel + 1) st = some (catchResult spec st' f msg) := by
  rw [runLoop]
  simp [hterm, hstep]

/-- A terminal (or fail) state: the loop stops and returns the finished
result, whatever fuel remains. -/
theorem runLoop_finish {spec : SkillSpec C} {m : Nat} {a : Option (List String)}
    {fuel : Nat} {st : EngSt C} (hterm : isTerminal spec st.current = true) :
    runLoop spec m a fuel st = some (finishResult spec st) := by
  rw [runLoop.eq_def]
  simp [hterm]

/-! ### Transition-selection lemmas -/

/-- The transition chosen by the scan is exactly the first one (in declared
order) whose guard passes. -/
theorem scanTransitions_snd (ctx : C) (cur : String) (ts : List (Transition C)) :
    (scanTransitions ctx cur ts).2 = ts.find? (fun t => guardPasses t ctx) := by
  induction ts with
  | nil => rfl
  | cons t rest ih =>
      by_cases h : guardPasses t ctx
      · simp [scanTransitions, h, List.find?_cons]
      · simp [scanTransitions, h, List.find?_cons, ih]

/-- Every event the scan pushes is a `guard` event; in particular guard
evaluation never records an `error` event. -/
theorem scanTransitions_events (ctx : C) (cur : String) :
    ∀ (ts : List (Transition C)) (e : TraceEvent), e ∈ (scanTransitions ctx cur ts).1 →
      e.type = .guard ∧ e.error = none := by
  intro ts
  induction ts with
  | nil => intro e he; simp [scanTransitions] at he
  | cons t rest ih =>
      intro e he
      simp only [scanTransitions] at he
      split at he
      · split at he
        · simp only [List.mem_singleton] at he
          subst he; exact ⟨rfl, rfl⟩
        · simp at he
      · rw [List.mem_append] at he
        rcases he with he | he
        · split at he
          · simp only [List.mem_singleton] at he
            subst he; exact ⟨rfl, rfl⟩
          · simp at he
        · exact ih e he

/-- The `find?` returns the first element satisfying the predicate: walking from
any index `i` known to satisfy `p`, there is a least index `k ≤ i` that
`find?` returns. -/
theorem find?_first_index {α : Type} (p : α → Bool) (l : List α) :
    ∀ (i : Nat) (hi : i < l.length), p (l.get ⟨i, hi⟩) = true →
      ∃ (k : Nat) (hk : k < l.length), k ≤ i ∧ p (l.get ⟨k, hk⟩) = true ∧
        (∀ (m : Nat) (hm : m < l.length), m < k → p (l.get ⟨m, hm⟩) = false) ∧
        l.find? p = some (l.get ⟨k, hk⟩) := by
  induction l with
  | nil => intro i hi; simp at hi
  | cons a l ih =>
      intro i hi hp
      by_cases pa : p a = true
      · refine ⟨0, by simp, Nat.zero_le i, pa, ?_, ?_⟩
        · intro m hm hmk; omega
        · rw [List.find?_cons_of_pos _ pa]; rfl
      · have pa' : p a = false := by simpa using pa
        cases i with
        | zero => exact absurd hp pa
        | succ j =>
            have hj : j < l.length := by simpa using hi
            obtain ⟨k, hk, hki, hpk, hmin, hfind⟩ := ih j hj hp
            refine ⟨k + 1, by simpa using hk, by omega, hpk, ?_, ?_⟩
            · intro m hm hmk
              cases m with
              | zero => exact pa'
              | succ m' => exact hmin m' (by simpa using hm) (by omega)
            · rw [List.find?_cons_of_neg _ (by simp [pa']), hfind]; rfl

/-- When the current state's enter hook is absent and no guard passes, the
loop body fails the run with `GuardsBlocked`. -/
theorem stepWithDef_guardsBlocked {spec : SkillSpec C} {st : EngSt C} {d : StateDef C}
    (henter : d.onEnter = none)
    (hne : (outgoing spec st.current).isEmpty = false)
    (hscan : (scanTransitions st.ctx st.current (outgoing spec st.current)).2 = none) :
    ∃ st' m, stepWithDef spec st d = .failed st' "GuardsBlocked" m := by
  simp only [stepWithDef, henter, runHook, pushEv, hne, Bool.false_eq_true, if_false, hscan,
    doFail]
  exact ⟨_, _, rfl⟩

/-- When the current state's enter hook is absent and the scan selects a
transition, and the state has no exit hook either, the loop body moves to
that transition's destination. -/
theorem stepWithDef_takes_selected {spec : SkillSpec C} {st : EngSt C} {d : StateDef C}
    {t : Transition C}
    (henter : d.onEnter = none) (hexit : d.onExit = none)
    (hne : (outgoing spec st.current).isEmpty = false)
    (hscan : (scanTransitions st.ctx st.current (outgoing spec st.current)).2 = some t) :
    ∃ st', stepWithDef spec st d = .next st' ∧ st'.current = t.«to» := by
  simp only [stepWithDef, henter, runHook, pushEv, hne, Bool.false_eq_true, if_false, hscan,
    takeTransition, hexit, finishMove]
  exact ⟨_, rfl, rfl⟩

/-- Events already in the trace survive `api.fail`'s own event pushes. -/
theorem failTrace_trace_mem {st : EngSt C} {f : String} {note : Option String} {e : TraceEvent}
    (he : e ∈ st.trace) : e ∈ (failTrace st f note).trace := by
  cases note <;> simp [failTrace, pushEv] <;> tauto

/-- A hook that throws is converted by the engine's wrapper into an
`ActionError` `SkillFail`, with the exception recorded as an `error` trace
event. -/
theorem runHook_threw {st : EngSt C} {h : ActionFn C} {note : String} {c' : C}
    {evs : List TraceEvent} {err : ErrInfo}
    (ht : h st.ctx = .threw c' evs err) :
    ∃ st', runHook st (some h) note = .failed st' "ActionError" note ∧
      (⟨.error, some st.current, none, none, none, none, none, some err⟩ : TraceEvent) ∈
        st'.trace := by
  simp only [runHook, ht, hookFail]
  refine ⟨_, rfl, ?_⟩
  apply failTrace_trace_mem
  simp

/-- The temp file of `atomicWriteJson` is never the target file. -/
theorem tmpName_ne (targetPath : String) (pid ts : Nat) :
    tmpName targetPath pid ts ≠ targetPath := by
  intro h
  have hl := congrArg String.length h
  rw [tmpName] at hl
  simp only [String.length_append] at hl
  have h5 : (".tmp." : String).length = 5 := rfl
  have h1 : ("." : String).length = 1 := rfl
  omega

/-! ### The claims -/

/-- C1 (code evaluation at the failing input): with adapters whose
`writeAtomic` throws and all earlier stages succeeding, the refresh run ends
with `endState = "PartialWrite"` and `ok = false`; no trace event ever
enters, targets or leaves the `Rollback` state, i.e. the declared
`PartialWrite → Rollback` transition never fires because `PartialWrite` is
in the specification's `fail` list and the engine stops at fail states. -/
theorem refresh_partialWrite_no_rollback :
    ((runSkill (refreshPipelineAtomicSpec cexAdapters) cexRefreshCtx {}).map
        (fun r => (r.endState, r.ok,
          r.trace.countP (fun e =>
            e.state == some "Rollback" || e.«to» == some "Rollback" ||
              e.«from» == some "Rollback")))) =
      some ("PartialWrite", false, 0) := by
  rw [show runSkill (refreshPipelineAtomicSpec cexAdapters) cexRefreshCtx {} =
      runLoop (refreshPipelineAtomicSpec cexAdapters) 200 none (200 + 1)
        ⟨"Start", cexRefreshCtx, 0, []⟩ from rfl]
  rw [show runLoop (refreshPipelineAtomicSpec cexAdapters) 200 none (200 + 1)
        ⟨"Start", cexRefreshCtx, 0, []⟩ =
      runLoop (refreshPipelineAtomicSpec cexAdapters) 200 none 200 c1State1 from
    runLoop_step_next rfl rfl]
  rw [show runLoop (refreshPipelineAtomicSpec cexAdapters) 200 none 200 c1State1 =
      runLoop (refreshPipelineAtomicSpec cexAdapters) 200 none 199 c1State2 from
    runLoop_step_next rfl rfl]
  rw [show runLoop (refreshPipelineAtomicSpec cexAdapters) 200 none 199 c1State2 =
      runLoop (refreshPipelineAtomicSpec cexAdapters) 200 none 198 c1State3 from
    runLoop_step_next rfl rfl]
  rw [show runLoop (refreshPipelineAtomicSpec cexAdapters) 200 none 198 c1State3 =
      runLoop (refreshPipelineAtomicSpec cexAdapters) 200 none 197 c1State4 from
    runLoop_step_next rfl rfl]
  rw [show runLoop (refreshPipelineAtomicSpec cexAdapters) 200 none 197 c1State4 =
      runLoop (refreshPipelineAtomicSpec cexAdapters) 200 none 196 c1State5 from
    runLoop_step_next rfl rfl]
  rw [show runLoop (refreshPipelineAtomicSpec cexAdapters) 200 none 196 c1State5 =
      runLoop (refreshPipelineAtomicSpec cexAdapters) 200 none 195 c1State6 from
    runLoop_step_next rfl rfl]
  rw [show runLoop (refreshPipelineAtomicSpec cexAdapters) 200 none 195 c1State6 =
      some (catchResult (refreshPipelineAtomicSpec cexAdapters) c1StateFail "PartialWrite"
        "ENOSPC: no space left on device") from runLoop_step_failed rfl rfl]
  rfl

/-- C2: `atomicWriteJson` is atomic for the target path — interrupting the
write at any point before the final rename (before opening the temp file,
after creating it, after writing any prefix of the data, after the full
write, after the fsync, after the close) leaves the target's content exactly
as it was, and after the rename the target's content is exactly the new
serialized data. -/
theorem atomicWriteJson_atomicity (fs : FileSys) (targetPath data : String) (pid ts : Nat) :
    atomicWriteJsonFsAt fs targetPath (tmpName targetPath pid ts) data .beforeOpen targetPath
        = fs targetPath ∧
    atomicWriteJsonFsAt fs targetPath (tmpName targetPath pid ts) data .afterOpen targetPath
        = fs targetPath ∧
    (∀ k : Nat, atomicWriteJsonFsAt fs targetPath (tmpName targetPath pid ts) data
        (.midWrite k) targetPath = fs targetPath) ∧
    atomicWriteJsonFsAt fs targetPath (tmpName targetPath pid ts) data .afterWrite targetPath
        = fs targetPath ∧
    atomicWriteJsonFsAt fs targetPath (tmpName targetPath pid ts) data .afterSync targetPath
        = fs targetPath ∧
    atomicWriteJsonFsAt fs targetPath (tmpName targetPath pid ts) data .afterClose targetPath
        = fs targetPath ∧
    atomicWriteJsonFsAt fs targetPath (tmpName targetPath pid ts) data .afterRename targetPath
        = some data := by
  have hne : ¬(targetPath = tmpName targetPath pid ts) :=
    fun h => tmpName_ne targetPath pid ts h.symm
  refine ⟨rfl, ?_, fun k => ?_, ?_, ?_, ?_, ?_⟩ <;>
    simp [atomicWriteJsonFsAt, fsWrite, fsRename, hne]

/-- C3: `runSkill` returns a `RunResult` and never raises to its caller:
(i) for every specification, context and options the run produces a result;
(ii) an exception thrown by an enter or exit hook (including an adapter
throwing inside one) is caught by the engine's hook wrapper and converted
into a `SkillFail` to the built-in `ActionError` fail state, recording the
exception as an `error` trace event; (iii) any `SkillFail` leaving the loop
body is caught and converted into a returned result with that fail state as
`endState` and `ok = false` — it is never propagated to the caller. -/
theorem runSkill_never_raises (spec : SkillSpec C) (ctx : C) (opts : RunOpts) :
    (∃ r, runSkill spec ctx opts = some r) ∧
    (∀ (st : EngSt C) (h : ActionFn C) (note : String) (c' : C) (evs : List TraceEvent)
        (err : ErrInfo), h st.ctx = .threw c' evs err →
      ∃ st', runHook st (some h) note = .failed st' "ActionError" note ∧
        (⟨.error, some st.current, none, none, none, none, none, some err⟩ : TraceEvent) ∈
          st'.trace) ∧
    (∀ (fuel : Nat) (st st' : EngSt C) (f m : String),
        isTerminal spec st.current = false →
        stepIter spec (opts.maxSteps.getD 200) opts.allowedStates st = .failed st' f m →
        ∃ r, runLoop spec (opts.maxSteps.getD 200) opts.allowedStates (fuel + 1) st = some r ∧
          r.endState = f ∧ r.ok = false) := by
  refine ⟨?_, ?_, ?_⟩
  · obtain ⟨r, hr, -⟩ := runLoop_total spec (opts.maxSteps.getD 200) opts.allowedStates
      (opts.maxSteps.getD 200 + 1) ⟨spec.start, ctx, 0, []⟩ (by simp) (by simp)
    exact ⟨r, hr⟩
  · intro st h note c' evs err ht
    exact runHook_threw ht
  · intro fuel st st' f m hterm hstep
    refine ⟨catchResult spec st' f m, ?_, catchResult_endState spec st' f m,
      catchResult_ok spec st' f m⟩
    rw [runLoop]
    simp [hterm, hstep]

/-- C3 witness: the parts of `runSkill_never_raises` with hypotheses,
instantiated at a demo specification whose `Start` hook throws. -/
theorem runSkill_never_raises_witness :
    (∃ st', runHook (⟨"S", (7 : Nat), 1, []⟩ : EngSt Nat) (some demoThrowEnter)
        "onEnter failed in S" = .failed st' "ActionError" "onEnter failed in S" ∧
      (⟨.error, some "S", none, none, none, none, none,
          some ⟨"TypeError", "boom"⟩⟩ : TraceEvent) ∈ st'.trace) ∧
    (∃ r, runLoop demoThrowSpec 200 none (0 + 1) ⟨"S", (7 : Nat), 0, []⟩ = some r ∧
      r.endState = "ActionError" ∧ r.ok = false) := by
  constructor
  · exact (runSkill_never_raises demoThrowSpec 7 {}).2.1 ⟨"S", 7, 1, []⟩ demoThrowEnter
      "onEnter failed in S" 7 [] ⟨"TypeError", "boom"⟩ rfl
  · exact (runSkill_never_raises demoThrowSpec 7 {}).2.2 0 ⟨"S", 7, 0, []⟩
      ⟨"ActionError", 7, 1,
        [⟨.enter, some "S", none, none, none, none, none, none⟩,
         ⟨.error, some "S", none, none, none, none, none, some ⟨"TypeError", "boom"⟩⟩,
         ⟨.transition, none, some "S", some "ActionError", some "FAIL", none, none, none⟩,
         ⟨.error, some "ActionError", none, none, none, none, some "onEnter failed in S",
           some ⟨"Fail", "onEnter failed in S"⟩⟩]⟩
      "ActionError" "onEnter failed in S" rfl rfl

/-- C4: every run of `runSkill` terminates: with the loop fuel the engine
supplies, the loop always returns a result, whose step count either stays
within `maxSteps` or equals `maxSteps + 1` with the run cut off in the
built-in `EngineTimeout` fail state (the step counter exceeding `maxSteps`
lands there instead of looping). -/
theorem runSkill_terminates (spec : SkillSpec C) (ctx : C) (opts : RunOpts) :
    ∃ r, runSkill spec ctx opts = some r ∧
      (r.steps ≤ opts.maxSteps.getD 200 ∨
        (r.steps = opts.maxSteps.getD 200 + 1 ∧ r.endState = "EngineTimeout")) :=
  runLoop_total spec (opts.maxSteps.getD 200) opts.allowedStates
    (opts.maxSteps.getD 200 + 1) ⟨spec.start, ctx, 0, []⟩ (by simp) (by simp)

/-- C5: transition selection is deterministic first-match in declared order.
If two transitions out of state `s` (at positions `i < j` of the declared
outgoing list, guard-less transitions counting as true) both have true
guards under the current context, the engine's scan selects the first
transition with a true guard — a `k ≤ i` with every earlier guard false —
and a step of the engine from `s` (with no hooks in the way) moves to that
transition's destination, never to `j`'s. -/
theorem engine_first_match {spec : SkillSpec C} {s : String} {ctx : C} {i j : Nat}
    (hi : i < (outgoing spec s).length) (hj : j < (outgoing spec s).length) (hij : i < j)
    (hgi : guardPasses ((outgoing spec s).get ⟨i, hi⟩) ctx = true)
    (hgj : guardPasses ((outgoing spec s).get ⟨j, hj⟩) ctx = true) :
    ∃ (k : Nat) (hk : k < (outgoing spec s).length), k ≤ i ∧
      guardPasses ((outgoing spec s).get ⟨k, hk⟩) ctx = true ∧
      (∀ (m : Nat) (hm : m < (outgoing spec s).length), m < k →
        guardPasses ((outgoing spec s).get ⟨m, hm⟩) ctx = false) ∧
      (scanTransitions ctx s (outgoing spec s)).2 = some ((outgoing spec s).get ⟨k, hk⟩) ∧
      (∀ (st : EngSt C) (d : StateDef C), st.current = s → st.ctx = ctx →
        d.onEnter = none → d.onExit = none →
        ∃ st', stepWithDef spec st d = .next st' ∧
          st'.current = ((outgoing spec s).get ⟨k, hk⟩).«to») := by
  obtain ⟨k, hk, hki, hpk, hmin, hfind⟩ :=
    find?_first_index (fun t => guardPasses t ctx) (outgoing spec s) i hi hgi
  have hscan : (scanTransitions ctx s (outgoing spec s)).2 =
      some ((outgoing spec s).get ⟨k, hk⟩) := by
    rw [scanTransitions_snd]; exact hfind
  refine ⟨k, hk, hki, hpk, hmin, hscan, ?_⟩
  intro st d hcur hctx he hx
  subst hcur; subst hctx
  have hne : (outgoing spec st.current).isEmpty = false := by
    cases ho : outgoing spec st.current with
    | nil => rw [ho] at hk; simp at hk
    | cons a l => rfl
  have hscan' : (scanTransitions st.ctx st.current (outgoing spec st.current)).2 =
      some ((outgoing spec st.current).get ⟨k, hk⟩) := hscan
  exact stepWithDef_takes_selected he hx hne hscan'

/-- C5 witness: `engine_first_match` at the demo spec with two always-true
guards out of `A`: the first transition (to `B`) is selected and taken. -/
theorem engine_first_match_witness :
    ∃ (k : Nat) (hk : k < (outgoing demoFirstMatchSpec "A").length), k ≤ 0 ∧
      guardPasses ((outgoing demoFirstMatchSpec "A").get ⟨k, hk⟩) 0 = true ∧
      (∀ (m : Nat) (hm : m < (outgoing demoFirstMatchSpec "A").length), m < k →
        guardPasses ((outgoing demoFirstMatchSpec "A").get ⟨m, hm⟩) 0 = false) ∧
      (scanTransitions 0 "A" (outgoing demoFirstMatchSpec "A")).2 =
        some ((outgoing demoFirstMatchSpec "A").get ⟨k, hk⟩) ∧
      (∀ (st : EngSt Nat) (d : StateDef Nat), st.current = "A" → st.ctx = 0 →
        d.onEnter = none → d.onExit = none →
        ∃ st', stepWithDef demoFirstMatchSpec st d = .next st' ∧
          st'.current = ((outgoing demoFirstMatchSpec "A").get ⟨k, hk⟩).«to») :=
  @engine_first_match Nat demoFirstMatchSpec "A" 0 0 1 (by decide) (by decide) (by decide)
    (by decide) (by decide)

/-- C6 counterexample: `TraceStore.record` has no try/catch — when the
underlying file write fails, `record` propagates the error to its caller
instead of returning a (sentinel) string identifier. -/
theorem traceStore_record_propagates :
    TraceStore.record "survivor.scan_mint" "lz3k1a" "3f7c"
        (.error ⟨"Error", "EACCES: permission denied"⟩) (.ok ()) =
      .error ⟨"Error", "EACCES: permission denied"⟩ ∧
    (∀ id : String, TraceStore.record "survivor.scan_mint" "lz3k1a" "3f7c"
        (.error ⟨"Error", "EACCES: permission denied"⟩) (.ok ()) ≠ .ok id) :=
  ⟨rfl, fun _ h => Except.noConfusion h⟩

/-- C6 amended: it is the caller, `runTracedSkill`, that never raises: it
runs the skill, calls `TraceStore.record`, and on a record failure swallows
the error and returns the sentinel id `"unrecorded"` instead, so trace
recording cannot abort the run being observed; on success the recorded id
is returned. -/
theorem runTracedSkill_sentinel (spec : SkillSpec C) (ctx : C) (opts : RunOpts)
    (recordOutcome : RunResult C → Except ErrInfo String) :
    ∃ tr, runTracedSkill spec ctx opts recordOutcome = some tr ∧
      tr.trace_id = (match recordOutcome tr.result with
                     | .ok id => id
                     | .error _ => "unrecorded") := by
  obtain ⟨r, hr, -⟩ := runLoop_total spec (opts.maxSteps.getD 200) opts.allowedStates
    (opts.maxSteps.getD 200 + 1) ⟨spec.start, ctx, 0, []⟩ (by simp) (by simp)
  have hr' : runSkill spec ctx opts = some r := hr
  refine ⟨⟨r, match recordOutcome r with | .ok id => id | .error _ => "unrecorded"⟩, ?_, ?_⟩
  · unfold runTracedSkill
    rw [hr']
    rfl
  · rfl

/-- C7 (code evaluation at the failing input): three trace records of the
same skill (`"survivor"`) recorded at three different timestamps, with a
retention count of 1 — the claim (and `prune`'s own doc comment, "Keeps
newest N per skill") require the two oldest to be deleted, but the code
groups by the first two dot-segments of the file name (skill-short **plus**
timestamp), so every record is its own group and nothing is deleted. -/
theorem prune_deletes_nothing_per_skill :
    TraceStore.prune
        [generateTraceId "survivor" "k1" "ab12" ++ ".json",
         generateTraceId "survivor" "k2" "cd34" ++ ".json",
         generateTraceId "survivor" "k3" "ef56" ++ ".json"] 1 = 0 := by
  with_unfolding_all rfl

/-- C9: scenario C — the governor input with safety 90, conviction 80,
regime alignment 85, risk budget 75, execution allowance 100, PRIVATE mode
and ACCUMULATION regime is APPROVED: the fixed-weight composite score
rounds to 86, which meets the PRIVATE-mode approve threshold 72, and the
run ends in the `Approved` terminal state. -/
theorem governor_scenarioC_approved :
    ((runSkill executionGovernorSpec scenarioCCtx {}).map
        (fun r => (r.endState, r.ok, r.ctx.decision,
          (r.ctx.debug.getD {}).compositeScore))) =
      some ("Approved", true, some .APPROVED, some 86) ∧
    compositeScore { scenarioCCtx with debug := some { normalized := true } } = 86 ∧
    (baseThresholds scenarioCCtx).approve = 72 ∧ (72 : ℚ) ≤ 86 := by
  refine ⟨?_, by with_unfolding_all rfl, by with_unfolding_all rfl, by norm_num⟩
  rw [show runSkill executionGovernorSpec scenarioCCtx {} =
      runLoop executionGovernorSpec 200 none (200 + 1) ⟨"Start", scenarioCCtx, 0, []⟩ from rfl]
  rw [show runLoop executionGovernorSpec 200 none (200 + 1) ⟨"Start", scenarioCCtx, 0, []⟩ =
      runLoop executionGovernorSpec 200 none 200 c9State1 from
    runLoop_step_next rfl (by with_unfolding_all rfl)]
  rw [show runLoop executionGovernorSpec 200 none 200 c9State1 =
      runLoop executionGovernorSpec 200 none 199 c9State2 from
    runLoop_step_next rfl (by with_unfolding_all rfl)]
  rw [show runLoop executionGovernorSpec 200 none 199 c9State2 =
      runLoop executionGovernorSpec 200 none 198 c9State3 from
    runLoop_step_next rfl (by with_unfolding_all rfl)]
  rw [show runLoop executionGovernorSpec 200 none 198 c9State3 =
      runLoop executionGovernorSpec 200 none 197 c9State4 from
    runLoop_step_next rfl (by with_unfolding_all rfl)]
  rw [show runLoop executionGovernorSpec 200 none 197 c9State4 =
      some (finishResult executionGovernorSpec c9State4) from
    runLoop_finish (by with_unfolding_all rfl)]
  with_unfolding_all rfl

/-! ### Governor step lemmas for the symbolic zero-allowance run -/

theorem clamp_nonpos {q : ℚ} (h : q ≤ 0) : clamp q = 0 := by
  unfold clamp
  rw [min_eq_right (le_trans h (by norm_num)), max_eq_left h]

/-- One governor iteration at `Start`, for any context with a non-empty
action: the signals are clamped and the run moves to `Guardrails`. -/
theorem govStep_start {c : ExecutionGovernorCtx} {n : Nat} {tr : List TraceEvent}
    (ha : ¬ c.action = "") (hm : n + 1 ≤ 200) :
    stepIter executionGovernorSpec 200 none ⟨"Start", c, n, tr⟩ = .next
      ⟨"Guardrails", govNormalize c, n + 1,
        tr ++ [⟨.enter, some "Start", none, none, none, none, none, none⟩,
               ⟨.transition, none, some "Start", some "Guardrails", some "validate",
                 none, none, none⟩]⟩ := by
  have hh : govStartEnter c = .ok (govNormalize c) [] := by
    unfold govStartEnter; rw [if_neg ha]
  have hd : lookupState executionGovernorSpec "Start" =
      some ⟨some govStartEnter, none⟩ := rfl
  have ho : outgoing executionGovernorSpec "Start" =
      [⟨"Start", "Guardrails", none, some "validate"⟩] := rfl
  simp only [stepIter, allowedViolated, hd, stepWithDef, pushEv, runHook, hh, ho,
    scanTransitions, guardPasses, takeTransition, finishMove]
  rw [if_neg (show ¬ 200 < n + 1 by omega)]
  simp [List.append_assoc]

/-- One governor iteration at `Guardrails` on a normalized context whose
clamped safety is at least 20 and whose raw allowance is non-positive: the
decision becomes DENIED, the `Score` guard is false, and the run moves
straight to `Denied`. -/
theorem govStep_guardrails {c : ExecutionGovernorCtx} {n : Nat} {tr : List TraceEvent}
    (hs : ¬ clamp c.safety < 20) (hz : c.executionAllowance ≤ 0) (hm : n + 1 ≤ 200) :
    stepIter executionGovernorSpec 200 none ⟨"Guardrails", govNormalize c, n, tr⟩ = .next
      ⟨"Denied",
        { govNormalize c with decision := some .DENIED,
                              reason := some "No execution allowance" },
        n + 1,
        tr ++ [⟨.enter, some "Guardrails", none, none, none, none, none, none⟩,
               ⟨.guard, some "Guardrails", none, some "Score", some "hard gates ok",
                 some false, none, none⟩,
               ⟨.guard, some "Guardrails", none, some "Denied", some "hard gate denied",
                 some true, none, none⟩,
               ⟨.transition, none, some "Guardrails", some "Denied",
                 some "hard gate denied", none, none, none⟩]⟩ := by
  have hh : govGuardrailsEnter (govNormalize c) = .ok
      { govNormalize c with decision := some .DENIED,
                            reason := some "No execution allowance" } [] := by
    unfold govGuardrailsEnter
    rw [show (govNormalize c).safety = clamp c.safety from rfl, if_neg hs]
    rw [show (govNormalize c).executionAllowance = clamp c.executionAllowance from rfl,
      if_pos (le_of_eq (clamp_nonpos hz))]
    rfl
  have hd : lookupState executionGovernorSpec "Guardrails" =
      some ⟨some govGuardrailsEnter, none⟩ := rfl
  have ho : outgoing executionGovernorSpec "Guardrails" =
      [⟨"Guardrails", "Score", some govNotDenied, some "hard gates ok"⟩,
       ⟨"Guardrails", "Denied", some govDenied, some "hard gate denied"⟩] := rfl
  simp only [stepIter, allowedViolated, hd, stepWithDef, pushEv, runHook, hh, ho,
    scanTransitions, guardPasses, guardEval, govNotDenied, govDenied, takeTransition,
    finishMove]
  rw [if_neg (show ¬ 200 < n + 1 by omega)]
  simp [List.append_assoc]

/-- C8 counterexample: a governor input with `executionAllowance = 0` but
`safety = 10` — the run fails at the safety gate into `BadInput` with no
decision recorded at all; the decision is not DENIED, so the claim's
"irrespective of the values of all other signals" is false. -/
theorem governor_lowSafety_not_denied :
    ((runSkill executionGovernorSpec lowSafetyGovCtx {}).map
        (fun r => (r.endState, r.ok, r.ctx.decision))) =
      some ("BadInput", false, none) := by
  with_unfolding_all rfl

/-- C8 amended: for every governor input whose action is non-empty and whose
clamped safety passes the hard floor (`clamp safety ≥ 20` — otherwise the
run fails `BadInput` before any decision), `executionAllowance ≤ 0` forces
the decision DENIED irrespective of the remaining signals (conviction,
regime alignment, risk budget, regime, mode): the run ends in the `Denied`
terminal state with `decision = DENIED`, and scoring is bypassed — the
`Score` state is never entered. -/
theorem governor_zero_allowance_denied (c : ExecutionGovernorCtx)
    (ha : c.action ≠ "") (hs : ¬ clamp c.safety < 20) (hz : c.executionAllowance ≤ 0) :
    ∃ r, runSkill executionGovernorSpec c {} = some r ∧
      r.endState = "Denied" ∧ r.ok = true ∧
      r.ctx.decision = some GovernorDecision.DENIED ∧
      (∀ e ∈ r.trace, ¬(e.type = .enter ∧ e.state = some "Score")) := by
  rw [show runSkill executionGovernorSpec c {} =
      runLoop executionGovernorSpec 200 none (200 + 1) ⟨"Start", c, 0, []⟩ from rfl]
  rw [runLoop_step_next (show isTerminal executionGovernorSpec "Start" = false from rfl)
    (govStep_start ha (by norm_num))]
  rw [runLoop_step_next (show isTerminal executionGovernorSpec "Guardrails" = false from rfl)
    (govStep_guardrails hs hz (by norm_num))]
  refine ⟨_, runLoop_finish rfl, rfl, rfl, rfl, ?_⟩
  intro e he h2
  obtain ⟨het, hes⟩ := h2
  simp only [finishResult, pushEv] at he
  simp at he
  rcases he with he | he | he | he | he | he | he <;> subst he <;> simp_all

/-- C8 amended witness: the zero-allowance input with safety 95 (all other
signals poor) is DENIED through the `Denied` terminal state. -/
theorem governor_zero_allowance_denied_witness :
    ∃ r, runSkill executionGovernorSpec zeroAllowanceGovCtx {} = some r ∧
      r.endState = "Denied" ∧ r.ok = true ∧
      r.ctx.decision = some GovernorDecision.DENIED ∧
      (∀ e ∈ r.trace, ¬(e.type = .enter ∧ e.state = some "Score")) :=
  governor_zero_allowance_denied zeroAllowanceGovCtx (by decide)
    (by rw [show clamp zeroAllowanceGovCtx.safety = 95 from rfl]; norm_num)
    (by rw [show zeroAllowanceGovCtx.executionAllowance = 0 from rfl])

/-- C10: a throwing guard is recorded as `false` and scanning continues in
declared order: (i) a transition whose guard throws does not pass;
(ii) guard evaluation never emits anything but `guard` events — in
particular no `error` event; (iii) the selected transition is always the
first one whose guard passes, so evaluation continues past the thrower;
(iv) a selected transition always has a passing guard (never the thrower);
(v) if no guard passes at all, the loop body ends the run in the
`GuardsBlocked` fail state — not `ActionError` — and nothing propagates. -/
theorem guard_throw_treated_as_false {spec : SkillSpec C} {s : String} {ctx : C}
    {t : Transition C} {g : GuardFn C} {err : ErrInfo}
    (hg : t.guard = some g) (hthrow : g ctx = .error err) :
    guardPasses t ctx = false ∧
    (∀ (ts : List (Transition C)), ∀ e ∈ (scanTransitions ctx s ts).1,
      e.type = .guard ∧ e.error = none) ∧
    (∀ ts : List (Transition C),
      (scanTransitions ctx s ts).2 = ts.find? (fun u => guardPasses u ctx)) ∧
    (∀ (ts : List (Transition C)) (u : Transition C),
      (scanTransitions ctx s ts).2 = some u → guardPasses u ctx = true) ∧
    (∀ (st : EngSt C) (d : StateDef C), st.ctx = ctx → d.onEnter = none →
      (outgoing spec st.current).isEmpty = false →
      (scanTransitions st.ctx st.current (outgoing spec st.current)).2 = none →
      ∃ st' m, stepWithDef spec st d = .failed st' "GuardsBlocked" m) := by
  refine ⟨?_, ?_, ?_, ?_, ?_⟩
  · simp [guardPasses, hg, guardEval, hthrow]
  · intro ts e he
    exact scanTransitions_events ctx s ts e he
  · intro ts
    exact scanTransitions_snd ctx s ts
  · intro ts u hsel
    rw [scanTransitions_snd ctx s ts] at hsel
    simpa using List.find?_some hsel
  · intro st d hctx henter hne hscan
    exact stepWithDef_guardsBlocked henter hne hscan

/-- C10 witness: the demo spec whose first guard out of `A` throws — the
thrower is skipped and the second transition (to `B`) is selected. -/
theorem guard_throw_treated_as_false_witness :
    guardPasses (⟨"A", "Z", some demoThrowGuard, none⟩ : Transition Nat) 0 = false ∧
    (∀ (ts : List (Transition Nat)), ∀ e ∈ (scanTransitions 0 "A" ts).1,
      e.type = .guard ∧ e.error = none) ∧
    (∀ ts : List (Transition Nat),
      (scanTransitions 0 "A" ts).2 = ts.find? (fun u => guardPasses u 0)) ∧
    (∀ (ts : List (Transition Nat)) (u : Transition Nat),
      (scanTransitions 0 "A" ts).2 = some u → guardPasses u 0 = true) ∧
    (∀ (st : EngSt Nat) (d : StateDef Nat), st.ctx = 0 → d.onEnter = none →
      (outgoing demoGuardThrowSpec st.current).isEmpty = false →
      (scanTransitions st.ctx st.current (outgoing demoGuardThrowSpec st.current)).2 = none →
      ∃ st' m, stepWithDef demoGuardThrowSpec st d = .failed st' "GuardsBlocked" m) :=
  @guard_throw_treated_as_false Nat demoGuardThrowSpec "A" 0
    ⟨"A", "Z", some demoThrowGuard, none⟩ demoThrowGuard
    ⟨"RangeError", "guard blew up"⟩ rfl rfl

end SkillEngine
